import Mathlib

/-!
Verification development for the camdocs pattern-formatter backend
(`src/backend/pattern_formatter_backend.py`).

Python strings are modelled as `List Char`; Python regular expressions used
by the modelled components are either hand-compiled to equivalent structural
functions (with the source regex quoted in a comment) or run through the
small regex interpreter defined below.  Character classes `\s`, `\d`, `\w`
are modelled over their ASCII subsets, which is exact on every input that
appears in the claims.
-/

namespace CamDocs

/-- Convert a Lean string literal to the character-list model. -/
def chars (s : String) : List Char := s.data

/-- Python whitespace test (`str.strip`, `str.split`, regex `\s`), ASCII subset. -/
def pyIsSpace (c : Char) : Bool :=
  c = ' ' || c = '\t' || c = '\n' || c = '\r' || c = '\x0b' || c = '\x0c'

/-- Python `str.lstrip()`. -/
def lstripL (s : List Char) : List Char := s.dropWhile pyIsSpace

/-- Python `str.rstrip()`. -/
def rstripL (s : List Char) : List Char := (s.reverse.dropWhile pyIsSpace).reverse

/-- Python `str.strip()`. -/
def stripL (s : List Char) : List Char := rstripL (lstripL s)

/-- Python `str.upper()` (ASCII). -/
def upperL (s : List Char) : List Char := s.map Char.toUpper

/-- Python `str.lower()` (ASCII). -/
def lowerL (s : List Char) : List Char := s.map Char.toLower

/-- Does the first list start with the second (`str.startswith`)? -/
def startsWithL : List Char → List Char → Bool
  | _, [] => true
  | [], _ :: _ => false
  | c :: r, d :: q => c = d && startsWithL r q

/-- Python substring containment `needle in hay`. -/
def hasSub : List Char → List Char → Bool
  | [], needle => needle.isEmpty
  | c :: t, needle => startsWithL (c :: t) needle || hasSub t needle

/-- `str.split()` with no argument: split on whitespace runs, drop empties.
Fuel-driven so that the kernel can evaluate it; fuel `s.length` always
suffices because every step consumes at least one character. -/
def pySplitF : Nat → List Char → List (List Char)
  | 0, _ => []
  | _, [] => []
  | f + 1, c :: r =>
    if pyIsSpace c then pySplitF f r
    else
      (c :: r.takeWhile (fun x => !pyIsSpace x)) ::
        pySplitF f (r.dropWhile (fun x => !pyIsSpace x))

/-- Python `str.split()`. -/
def pySplit (s : List Char) : List (List Char) := pySplitF s.length s

namespace HierarchyCorrector

/-- `HierarchyCorrector.HIERARCHICAL_PAIRS` (source lines 635-653), in the
source insertion order. -/
def HIERARCHICAL_PAIRS : List (List Char × List (List Char)) :=
  [ (chars "WEEK", [chars "DAY", chars "SESSION", chars "CLASS", chars "LECTURE"]),
    (chars "MONTH", [chars "WEEK", chars "PHASE"]),
    (chars "YEAR", [chars "QUARTER", chars "SEMESTER", chars "TERM"]),
    (chars "CHAPTER", [chars "SECTION", chars "TOPIC", chars "SUBTOPIC"]),
    (chars "UNIT", [chars "LESSON", chars "MODULE", chars "EXERCISE"]),
    (chars "PART", [chars "CHAPTER", chars "SECTION"]),
    (chars "MODULE", [chars "TOPIC", chars "SUBTOPIC", chars "ACTIVITY"]),
    (chars "THEORY", [chars "PRINCIPLE", chars "CONCEPT", chars "MODEL"]),
    (chars "METHOD", [chars "STEP", chars "PROCEDURE", chars "TECHNIQUE"]),
    (chars "ANALYSIS", [chars "RESULT", chars "FINDING", chars "INTERPRETATION"]),
    (chars "FRAMEWORK", [chars "COMPONENT", chars "ELEMENT", chars "DIMENSION"]),
    (chars "SYSTEM", [chars "SUBSYSTEM", chars "MODULE", chars "COMPONENT"]),
    (chars "PROCESS", [chars "STAGE", chars "PHASE", chars "STEP"]),
    (chars "MODEL", [chars "VARIABLE", chars "COMPONENT", chars "ELEMENT"]),
    (chars "STRATEGY", [chars "TACTIC", chars "APPROACH", chars "METHOD"]),
    (chars "CATEGORY", [chars "TYPE", chars "CLASS", chars "FORM"]),
    (chars "PRINCIPLE", [chars "RULE", chars "GUIDELINE", chars "STANDARD"]) ]

/-- `HierarchyCorrector.is_hierarchical_pair` (source lines 708-725):
dictionary keyword containment on the uppercased titles, else the
short-parent / long-child word-overlap heuristic. -/
def isHierarchicalPair (parent child : List Char) : Bool :=
  let pu := upperL parent
  let cu := upperL child
  (HIERARCHICAL_PAIRS.any fun pc =>
    hasSub pu pc.1 && pc.2.any fun c => hasSub cu c) ||
  ((pySplit parent).length < 4 && (pySplit child).length > 3 &&
    ((pySplit pu).any fun w => (pySplit cu).any fun v => v = w))

/-- Maximal munch of `\d+(?:\.\d+)*` assuming the caller has checked the
first character is a digit; a dot is consumed only when a digit follows. -/
def numTok : List Char → List Char × List Char
  | [] => ([], [])
  | [c] => if c.isDigit then ([c], []) else ([], [c])
  | c :: d :: r =>
    if c.isDigit then
      let p := numTok (d :: r)
      (c :: p.1, p.2)
    else if c = '.' && d.isDigit then
      let p := numTok (d :: r)
      (c :: p.1, p.2)
    else ([], c :: d :: r)

/-- `re.match(r'^(\d+(?:\.\d+)*)\s+(.*)$', line)` from
`HierarchyCorrector.correct_lines` (source line 738): returns the number
group and the title group.  `(.*)` cannot cross a newline and `$` tolerates
exactly one final newline. -/
def parseNumbered (s : List Char) : Option (List Char × List Char) :=
  if (s.headD ' ').isDigit then
    let p := numTok s
    if (p.2.takeWhile pyIsSpace).isEmpty then none
    else
      let r3 := p.2.dropWhile pyIsSpace
      let body := r3.takeWhile fun c => c ≠ '\n'
      let rest := r3.dropWhile fun c => c ≠ '\n'
      if rest.isEmpty then some (p.1, body)
      else if rest = ['\n'] then some (p.1, body)
      else none
  else none

/-- `HierarchyCorrector.correct_lines` (source lines 727-767): pairwise scan
over adjacent numbered-heading lines; a hierarchical pair rewrites the child
to `parentNumber.1 childTitle` and skips the child line. -/
def correctLines : List (List Char) → List (List Char)
  | [] => []
  | [c] => [c]
  | c :: x :: r =>
    match parseNumbered c with
    | none => c :: correctLines (x :: r)
    | some (nu, t1) =>
      match parseNumbered x with
      | some (_, t2) =>
        if isHierarchicalPair t1 t2 then
          c :: (nu ++ '.' :: '1' :: ' ' :: t2) :: correctLines r
        else c :: correctLines (x :: r)
      | none => c :: correctLines (x :: r)

end HierarchyCorrector

/-- Digits of a natural number, as Python `str(n)` / f-string interpolation. -/
def natStr (n : Nat) : List Char := (toString n).data

/-- Python regex `\w` (ASCII subset): letters, digits, underscore. -/
def pyIsWord (c : Char) : Bool := c.isAlphanum || c = '_'

/-- `re.sub(r'^#+\s*', '', text)`: strip leading markdown heading markers and
the whitespace that follows them (only when at least one `#` leads). -/
def stripMd (s : List Char) : List Char :=
  match s with
  | '#' :: _ => (s.dropWhile fun c => c = '#').dropWhile pyIsSpace
  | _ => s

/-- `re.sub(r'\*\*', '', s)`: drop every `**` pair, left to right. -/
def removeBoldMarks : List Char → List Char
  | '*' :: '*' :: r => removeBoldMarks r
  | c :: r => c :: removeBoldMarks r
  | [] => []

/-- One step of `re.sub(r'[\d\.]+\s*', '', s)` (fuel-driven scan; fuel
`s.length` suffices as every step consumes at least one character). -/
def removeNumsF : Nat → List Char → List Char
  | 0, _ => []
  | _, [] => []
  | f + 1, c :: r =>
    if c.isDigit || c = '.' then
      removeNumsF f ((r.dropWhile fun x => x.isDigit || x = '.').dropWhile pyIsSpace)
    else c :: removeNumsF f r

/-- `re.sub(r'[\d\.]+\s*', '', s)`. -/
def removeNums (s : List Char) : List Char := removeNumsF s.length s

/-- `re.sub(r'[^\w\s]', ' ', s)`: non-word, non-space characters become spaces. -/
def punctToSpace (s : List Char) : List Char :=
  s.map fun c => if pyIsWord c || pyIsSpace c then c else ' '

/-- `re.sub(r'\s+', ' ', s)`: collapse whitespace runs to single spaces
(fuel-driven scan). -/
def collapseWsF : Nat → List Char → List Char
  | 0, _ => []
  | _, [] => []
  | f + 1, c :: r =>
    if pyIsSpace c then ' ' :: collapseWsF f (r.dropWhile pyIsSpace)
    else c :: collapseWsF f r

/-- `re.sub(r'\s+', ' ', s)`. -/
def collapseWs (s : List Char) : List Char := collapseWsF s.length s

namespace HeadingNumberer

/-- `NumberingState`: the instance fields set by `HeadingNumberer.reset`
(source lines 890-902). -/
structure NState where
  currentChapter : Nat
  currentSection : Nat
  currentSubsection : Nat
  currentSubsubsection : Nat
  inAppendix : Bool
  appendixLetter : Char
  lastLevel : Nat
  lastHeadingText : List Char
  lastHeadingNormalized : List Char
  inParentSection : Option (List Char)
  parentSectionNumber : List Char
  deriving Repr, DecidableEq

/-- `HeadingNumberer.reset` (source lines 890-902). -/
def resetState : NState :=
  { currentChapter := 0, currentSection := 0, currentSubsection := 0,
    currentSubsubsection := 0, inAppendix := false, appendixLetter := 'A',
    lastLevel := 0, lastHeadingText := [], lastHeadingNormalized := [],
    inParentSection := none, parentSectionNumber := [] }

/-- `HeadingNumberer.ROMAN_TO_INT` (source lines 790-794). -/
def ROMAN_TO_INT : List (List Char × Nat) :=
  [ (chars "I", 1), (chars "II", 2), (chars "III", 3), (chars "IV", 4), (chars "V", 5),
    (chars "VI", 6), (chars "VII", 7), (chars "VIII", 8), (chars "IX", 9), (chars "X", 10),
    (chars "XI", 11), (chars "XII", 12), (chars "XIII", 13), (chars "XIV", 14), (chars "XV", 15) ]

/-- `HeadingNumberer.WORD_TO_INT` (source lines 797-801). -/
def WORD_TO_INT : List (List Char × Nat) :=
  [ (chars "ONE", 1), (chars "TWO", 2), (chars "THREE", 3), (chars "FOUR", 4), (chars "FIVE", 5),
    (chars "SIX", 6), (chars "SEVEN", 7), (chars "EIGHT", 8), (chars "NINE", 9), (chars "TEN", 10),
    (chars "ELEVEN", 11), (chars "TWELVE", 12), (chars "THIRTEEN", 13), (chars "FOURTEEN", 14),
    (chars "FIFTEEN", 15) ]

/-- `HeadingNumberer.UNNUMBERED_SECTIONS` (source lines 804-810).  The
accented `RÉSUMÉ` entry is kept verbatim; `Char.toUpper` is ASCII-only so
accented input text will not reach it, matching only literal occurrences. -/
def UNNUMBERED_SECTIONS : List (List Char) :=
  [ chars "DECLARATION", chars "CERTIFICATION", chars "DEDICATION", chars "ACKNOWLEDGEMENTS",
    chars "ACKNOWLEDGMENTS", chars "ACKNOWLEDGEMENT", chars "ABSTRACT", chars "RESUME",
    chars "RÉSUMÉ", chars "TABLE OF CONTENTS", chars "CONTENTS", chars "LIST OF TABLES",
    chars "LIST OF FIGURES", chars "LIST OF ABBREVIATIONS", chars "ABBREVIATIONS",
    chars "GLOSSARY", chars "REFERENCES", chars "BIBLIOGRAPHY", chars "APPENDIX",
    chars "APPENDICES", chars "INDEX", chars "PREFACE", chars "FOREWORD" ]

/-- `HeadingNumberer.CHAPTER_TITLE_SECTIONS` (source lines 813-820). -/
def CHAPTER_TITLE_SECTIONS : List (List Char) :=
  [ chars "GENERAL INTRODUCTION", chars "INTRODUCTION", chars "REVIEW OF RELATED LITERATURE",
    chars "LITERATURE REVIEW", chars "RESEARCH METHODOLOGY", chars "METHODOLOGY",
    chars "DATA ANALYSIS AND INTERPRETATION", chars "DATA ANALYSIS",
    chars "FINDINGS AND DISCUSSION", chars "DISCUSSION",
    chars "SUMMARY CONCLUSION AND RECOMMENDATIONS", chars "SUMMARY AND CONCLUSION",
    chars "CONCLUSION", chars "RECOMMENDATIONS", chars "PRESENTATION OF FINDINGS",
    chars "RESULTS AND DISCUSSION", chars "ANALYSIS AND FINDINGS" ]

/-- `HeadingNumberer.PARENT_CHILD_PATTERNS` (source lines 824-858), in the
source insertion order. -/
def PARENT_CHILD_PATTERNS : List (List Char × List (List Char)) :=
  [ (chars "research objectives",
      [chars "main research objective", chars "specific research objective",
       chars "general objective", chars "specific objectives"]),
    (chars "research questions",
      [chars "main research question", chars "specific research question",
       chars "general question", chars "specific questions"]),
    (chars "research hypothesis",
      [chars "main research hypothes", chars "specific research hypothes",
       chars "main hypothes", chars "specific hypothes", chars "null hypothesis",
       chars "alternative hypothesis"]),
    (chars "research hypotheses",
      [chars "main research hypothes", chars "specific research hypothes",
       chars "main hypothes", chars "specific hypothes", chars "null hypothesis",
       chars "alternative hypothesis"]),
    (chars "justification of the study",
      [chars "policy maker", chars "accountability", chars "knowledge gap",
       chars "evaluation", chars "stakeholder", chars "researcher", chars "student",
       chars "government"]),
    (chars "significance of the study",
      [chars "policy maker", chars "accountability", chars "knowledge gap",
       chars "evaluation", chars "stakeholder", chars "researcher", chars "student",
       chars "government"]),
    (chars "operational definition",
      [chars "cost sharing", chars "tax payer", chars "mechanism", chars "quality",
       chars "grant", chars "private universit", chars "government subsid",
       chars "community fund", chars "private fund", chars "tuition", chars "fee",
       chars "scholarship", chars "bursary"]),
    (chars "definition of terms",
      [chars "cost sharing", chars "tax payer", chars "mechanism", chars "quality",
       chars "grant", chars "private universit", chars "government subsid",
       chars "community fund", chars "private fund", chars "tuition", chars "fee",
       chars "scholarship", chars "bursary"]),
    (chars "theoretical review",
      [chars "equity theory", chars "human capital theory", chars "revenue theory",
       chars "resource dependency", chars "stakeholder theory", chars "agency theory",
       chars "institutional theory"]),
    (chars "theoretical framework",
      [chars "equity theory", chars "human capital theory", chars "revenue theory",
       chars "resource dependency", chars "stakeholder theory", chars "agency theory",
       chars "institutional theory"]),
    (chars "conceptual review",
      [chars "concept of", chars "conceptual framework", chars "nexus",
       chars "relationship between"]),
    (chars "conceptual framework",
      [chars "concept of", chars "nexus", chars "relationship between"]),
    (chars "empirical review",
      [chars "studies on", chars "research on", chars "findings", chars "previous studies"]),
    (chars "delimitation",
      [chars "geographical", chars "scope", chars "population", chars "time frame",
       chars "period"]),
    (chars "limitation",
      [chars "sample size", chars "time constraint", chars "access",
       chars "generalizability"]),
    (chars "week", [chars "day", chars "session", chars "class", chars "lecture"]),
    (chars "month", [chars "week", chars "phase"]),
    (chars "year", [chars "quarter", chars "semester", chars "term"]),
    (chars "chapter", [chars "section", chars "topic", chars "subtopic"]),
    (chars "unit", [chars "lesson", chars "module", chars "exercise"]),
    (chars "part", [chars "chapter", chars "section"]),
    (chars "module", [chars "topic", chars "subtopic", chars "activity"]),
    (chars "theory", [chars "principle", chars "concept", chars "model"]),
    (chars "method", [chars "step", chars "procedure", chars "technique"]),
    (chars "analysis", [chars "result", chars "finding", chars "interpretation"]),
    (chars "framework", [chars "component", chars "element", chars "dimension"]),
    (chars "system", [chars "subsystem", chars "module", chars "component"]),
    (chars "process", [chars "stage", chars "phase", chars "step"]),
    (chars "model", [chars "variable", chars "component", chars "element"]),
    (chars "strategy", [chars "tactic", chars "approach", chars "method"]),
    (chars "category", [chars "type", chars "class", chars "form"]),
    (chars "principle", [chars "rule", chars "guideline", chars "standard"]) ]

/-- `HeadingNumberer.DEFINITION_TERMS` (source lines 876-884). -/
def DEFINITION_TERMS : List (List Char) :=
  [ chars "cost sharing", chars "tax payer", chars "taxpayer", chars "tuition",
    chars "fee", chars "fees", chars "scholarship", chars "bursary", chars "grant",
    chars "loan", chars "subsidy", chars "subsidies", chars "funding", chars "revenue",
    chars "expenditure", chars "budget", chars "allocation", chars "quality education",
    chars "quality of education", chars "accreditation", chars "enrollment",
    chars "enrolment", chars "retention", chars "graduation rate",
    chars "private university", chars "public university", chars "state university",
    chars "community funding", chars "private funding", chars "government funding" ]

/-- `main_section_keywords` local to `_should_be_subsection` (source lines
986-999). -/
def MAIN_SECTION_KEYWORDS : List (List Char) :=
  [ chars "chapter summary", chars "summary of the chapter", chars "conclusion of the chapter",
    chars "delimitation of the study", chars "limitations of the study", chars "delimitations",
    chars "significance of the study", chars "scope of the study", chars "organization of the study",
    chars "structure of the study", chars "structure of the thesis", chars "structure of the dissertation",
    chars "statement of the problem", chars "problem statement",
    chars "conceptual review", chars "conceptual framework",
    chars "theoretical review", chars "theoretical framework",
    chars "empirical review", chars "empirical studies", chars "review of empirical",
    chars "research design", chars "research methodology", chars "methodology",
    chars "data presentation", chars "data analysis and interpretation",
    chars "summary conclusion and recommendation", chars "summary and conclusion",
    chars "recommendations for further", chars "recommendations" ]

/-- `HeadingNumberer._normalize_text` (source lines 904-911). -/
def normalizeText (text : List Char) : List Char :=
  let c1 := lowerL (stripL (stripMd text))
  let c2 := removeBoldMarks c1
  let c3 := removeNums c2
  let c4 := punctToSpace c3
  stripL (collapseWs c4)

/-- `HeadingNumberer._is_child_of_parent` (source lines 913-930). -/
def isChildOfParent (headingText parentText : List Char) : Bool :=
  let hn := normalizeText headingText
  let pn := normalizeText parentText
  PARENT_CHILD_PATTERNS.any fun pc =>
    hasSub pn pc.1 && pc.2.any fun cp => hasSub hn cp

/-- `^word\s+` on the (already lowercased, newline-free) normalized text:
the literal word followed by at least one whitespace character. -/
def startsThenSpace (s : List Char) (w : String) : Bool :=
  startsWithL s (chars w) &&
    match s.drop (chars w).length with
    | c :: _ => pyIsSpace c
    | [] => false

/-- `\s+` then a literal word: returns the remaining characters on success. -/
def afterSpacesWord (s : List Char) (w : String) : Option (List Char) :=
  if (s.takeWhile pyIsSpace).isEmpty then none
  else
    let r := s.dropWhile pyIsSpace
    if startsWithL r (chars w) then some (r.drop (chars w).length) else none

/-- `re.search(r'^\w+\s+can\s+be\s+expressed\s+as', s)`. -/
def canBeExpressed (s : List Char) : Bool :=
  if (s.takeWhile pyIsWord).isEmpty then false
  else
    match afterSpacesWord (s.dropWhile pyIsWord) "can" with
    | none => false
    | some r1 =>
      match afterSpacesWord r1 "be" with
      | none => false
      | some r2 =>
        match afterSpacesWord r2 "expressed" with
        | none => false
        | some r3 => (afterSpacesWord r3 "as").isSome

/-- `re.search(r'^word\s*:?\s*$', s)` for the `where:`/`note:`/`example:`
indicator patterns.  `$` also accepts a single final newline. -/
def wordColonEnd (s : List Char) (w : String) : Bool :=
  startsWithL s (chars w) &&
    (let r := (s.drop (chars w).length).dropWhile pyIsSpace
     let r2 := match r with
       | ':' :: q => q.dropWhile pyIsSpace
       | q => q
     r2.isEmpty || r2 = ['\n'])

/-- `HeadingNumberer._is_subsection_indicator` (source lines 932-940) over
the `SUBSECTION_INDICATORS` regex list (source lines 861-873); the text is
normalized first, so the patterns are checked against lowercase text and
`re.IGNORECASE` is immaterial. -/
def isSubsectionIndicator (text : List Char) : Bool :=
  let tl := normalizeText text
  startsThenSpace tl "main" || startsThenSpace tl "specific" ||
  startsThenSpace tl "general" || startsThenSpace tl "primary" ||
  startsThenSpace tl "secondary" || startsThenSpace tl "null" ||
  startsThenSpace tl "alternative" || canBeExpressed tl ||
  wordColonEnd tl "where" || wordColonEnd tl "note" || wordColonEnd tl "example"

/-- `HeadingNumberer._is_definition_term` (source lines 942-957); reads
`in_parent_section` from the state. -/
def isDefinitionTerm (st : NState) (text : List Char) : Bool :=
  let tl := normalizeText text
  DEFINITION_TERMS.any (fun term => hasSub tl term || hasSub term tl) ||
    (match st.inParentSection with
     | some p => hasSub p (chars "definition") && (pySplit tl).length ≤ 4
     | none => false)

/-- `HeadingNumberer._detect_parent_section` (source lines 959-972): first
dictionary key contained in the normalized text, in insertion order. -/
def detectParentSection (text : List Char) : Option (List Char) :=
  let tn := normalizeText text
  (PARENT_CHILD_PATTERNS.find? fun pc => hasSub tn pc.1).map fun pc => pc.1

/-- `HeadingNumberer._should_be_subsection` (source lines 974-1025).  The
main-section-keyword branch clears the parent context, so the function
returns the updated state alongside the decision. -/
def shouldBeSubsection (st : NState) (text : List Char) : Bool × NState :=
  let tn := normalizeText text
  if MAIN_SECTION_KEYWORDS.any fun k => hasSub tn k then
    (false, { st with inParentSection := none, parentSectionNumber := [] })
  else if isSubsectionIndicator text then (true, st)
  else if (match st.inParentSection with
           | some p =>
             isChildOfParent text p ||
               (hasSub p (chars "definition") && isDefinitionTerm st text)
           | none => false) then (true, st)
  else if !st.lastHeadingNormalized.isEmpty && isChildOfParent text st.lastHeadingText then
    (true, st)
  else (false, st)

/-- Decimal value of a digit run. -/
def natOfDigits (ds : List Char) : Nat :=
  ds.foldl (fun n c => n * 10 + (c.toNat - '0'.toNat)) 0

/-- After `CHAPTER` and the mandatory whitespace: the remaining characters,
or `none` when the prefix `^CHAPTER\s+` does not match. -/
def afterChapter (s : List Char) : Option (List Char) :=
  if startsWithL s (chars "CHAPTER") then
    let r := s.drop 7
    if (r.takeWhile pyIsSpace).isEmpty then none else some (r.dropWhile pyIsSpace)
  else none

/-- Greedy character-class run followed by a `\b` word-boundary check: the
run is maximal, and the pattern fails when the next character is still a
word character (shorter runs cannot restore the boundary because they would
end just before a class character, which is a word character). -/
def classRunWithBoundary (cls : Char → Bool) (r : List Char) : Option (List Char) :=
  let run := r.takeWhile cls
  if run.isEmpty then none
  else
    match r.drop run.length with
    | c :: _ => if pyIsWord c then none else some run
    | [] => some run

/-- `HeadingNumberer.parse_chapter_number` (source lines 1027-1061):
word chapter (`CHAPTER ONE`), then Roman (`CHAPTER IV`), then digit
(`CHAPTER 3`), else `0`. -/
def parseChapterNumber (text : List Char) : Nat :=
  let t1 := stripL (upperL text)
  let t2 := stripL (stripMd t1)
  match afterChapter t2 with
  | none => 0
  | some r =>
    let wordVal : Option Nat :=
      match classRunWithBoundary (fun c => 'A' ≤ c && c ≤ 'Z') r with
      | some run => (WORD_TO_INT.find? fun p => p.1 = run).map fun p => p.2
      | none => none
    match wordVal with
    | some v => v
    | none =>
      let romVal : Option Nat :=
        match classRunWithBoundary (fun c => c = 'I' || c = 'V' || c = 'X' || c = 'L' ||
            c = 'C' || c = 'D' || c = 'M') r with
        | some run => (ROMAN_TO_INT.find? fun p => p.1 = run).map fun p => p.2
        | none => none
      match romVal with
      | some v => v
      | none =>
        let ds := r.takeWhile Char.isDigit
        if ds.isEmpty then 0 else natOfDigits ds

/-- `HeadingNumberer.is_chapter_heading` (source lines 1063-1065). -/
def isChapterHeading (text : List Char) : Bool := 0 < parseChapterNumber text

/-- `HeadingNumberer.is_chapter_title` (source lines 1067-1073). -/
def isChapterTitle (text : List Char) : Bool :=
  CHAPTER_TITLE_SECTIONS.contains (upperL (stripL (stripMd text)))

/-- `HeadingNumberer.is_unnumbered_section` (source lines 1075-1078). -/
def isUnnumberedSection (text : List Char) : Bool :=
  UNNUMBERED_SECTIONS.contains (upperL (stripL (stripMd text)))

/-- `HeadingNumberer.is_appendix_heading` (source lines 1080-1083). -/
def isAppendixHeading (text : List Char) : Bool :=
  let clean := upperL (stripL (stripMd text))
  startsWithL clean (chars "APPENDIX") || startsWithL clean (chars "APPENDICES")

/-- `\s+(.+)$`: mandatory whitespace, then a nonempty newline-free title;
`$` accepts a single final newline. -/
def titleAfterSpaces (r : List Char) : Option (List Char) :=
  if (r.takeWhile pyIsSpace).isEmpty then none
  else
    let r3 := r.dropWhile pyIsSpace
    let body := r3.takeWhile fun c => c ≠ '\n'
    let rest := r3.dropWhile fun c => c ≠ '\n'
    if body.isEmpty then none
    else if rest.isEmpty then some body
    else if rest = ['\n'] then some body
    else none

/-- The appendix alternative `^([A-Z]\.(?:\d+\.)*\d+)\s+(.+)$` of
`HeadingNumberer.extract_existing_number`. -/
def tryAppendixNumber (clean : List Char) : Option (List Char) × List Char :=
  match clean with
  | c :: '.' :: rest =>
    if ('A' ≤ c && c ≤ 'Z') && (rest.headD ' ').isDigit then
      let p := HierarchyCorrector.numTok rest
      match titleAfterSpaces p.2 with
      | some ttl => (some (c :: '.' :: p.1), ttl)
      | none => (none, clean)
    else (none, clean)
  | _ => (none, clean)

/-- `HeadingNumberer.extract_existing_number` (source lines 1094-1113):
`^((?:\d+\.)+\d+)\s+(.+)$` (a number with at least one dot), else the
appendix form, else `(none, clean)`. -/
def extractExistingNumber (text : List Char) : Option (List Char) × List Char :=
  let clean := stripL (stripMd text)
  if (clean.headD ' ').isDigit then
    let p := HierarchyCorrector.numTok clean
    if p.1.contains '.' then
      match titleAfterSpaces p.2 with
      | some ttl => (some p.1, ttl)
      | none => tryAppendixNumber clean
    else tryAppendixNumber clean
  else tryAppendixNumber clean

/-- `HeadingNumberer.get_heading_level_from_markdown` (source lines
1115-1125): the number of leading `#` markers. -/
def mdLevel (text : List Char) : Nat := (text.takeWhile fun c => c = '#').length

/-- `HeadingNumberer.determine_heading_level` (source lines 1127-1158) at
the default arguments used by `number_heading` (`is_short=True`,
`is_all_caps=False`).  Both fall-through branches of the source return `2`
(the source indexes `clean[0]`, which raises on an empty string, but both
its branches return the same value). -/
def determineHeadingLevel (text : List Char) : Nat :=
  if isChapterHeading text || isChapterTitle text then 1
  else
    match (extractExistingNumber text).1 with
    | some num =>
      let dots := num.count '.'
      if dots = 1 then 2 else if 2 ≤ dots then 3 else 2
    | none => 2

/-- `HeadingRecord`: the dict returned by `HeadingNumberer.number_heading`
(source lines 1178-1185). -/
structure HRec where
  original : List Char
  numbered : List Char
  number : Option (List Char)
  level : Nat
  chapter : Nat
  wasRenumbered : Bool
  deriving Repr, DecidableEq

/-- The unnumbered record returned by the early branches of
`number_heading`: text unchanged, level 1, chapter as recorded. -/
def unnumberedRec (text : List Char) (chap : Nat) : HRec :=
  { original := text, numbered := text, number := none, level := 1,
    chapter := chap, wasRenumbered := false }

/-- The target level decided by `number_heading` (source lines 1242-1257)
for `target_level=None`: the semantic child test wins, then a detected
parent section, then markdown markers, then `determine_heading_level`. -/
def targetLevelOf (shouldBeChild : Bool) (hasParent : Bool) (text : List Char) : Nat :=
  let t0 :=
    if shouldBeChild then 3
    else if hasParent then 2
    else if 0 < mdLevel text then min (mdLevel text) 3
    else determineHeadingLevel text
  if shouldBeChild && t0 < 3 then 3 else t0

/-- The level-1/2 counter step of `number_heading` (source lines 1262-1284):
leave a stale parent context, advance the section counter, build the
number, and open a parent context when one was detected. -/
def stepSection (st1 : NState) (shouldBeChild : Bool)
    (detectedParent : Option (List Char)) (text : List Char) : List Char × NState :=
  let st2 :=
    if st1.inParentSection.isSome && !shouldBeChild then
      if detectParentSection text ≠ st1.inParentSection then
        { st1 with inParentSection := none, parentSectionNumber := [] }
      else st1
    else st1
  let st3 := { st2 with currentSection := st2.currentSection + 1,
                        currentSubsection := 0, currentSubsubsection := 0 }
  let newNumber :=
    if st3.inAppendix then st3.appendixLetter :: '.' :: natStr st3.currentSection
    else natStr st3.currentChapter ++ '.' :: natStr st3.currentSection
  let st4 :=
    if detectedParent.isSome then
      { st3 with inParentSection := detectedParent, parentSectionNumber := newNumber }
    else st3
  (newNumber, st4)

/-- The level-3 counter step of `number_heading` (source lines 1286-1297):
seed the section counter if needed, advance the subsection counter, build
the number. -/
def stepSubsection (st1 : NState) : List Char × NState :=
  let st2 := { st1 with currentSection := if st1.currentSection = 0 then 1
                                          else st1.currentSection }
  let st3 := { st2 with currentSubsection := st2.currentSubsection + 1,
                        currentSubsubsection := 0 }
  let newNumber :=
    if st3.inAppendix then
      st3.appendixLetter :: '.' :: natStr st3.currentSection ++
        '.' :: natStr st3.currentSubsection
    else
      natStr st3.currentChapter ++ '.' :: natStr st3.currentSection ++
        '.' :: natStr st3.currentSubsection
  (newNumber, st3)

/-- The numbering branch of `number_heading` (source lines 1233-1313),
reached when none of the early returns fired. -/
def numberHeadingMain (st : NState) (text : List Char) : HRec × NState :=
  let mdLvl := mdLevel text
  let cleanText := stripL (stripMd text)
  let en := extractExistingNumber text
  let sb := shouldBeSubsection st text
  let detectedParent := detectParentSection text
  let targetLevel := targetLevelOf sb.1 detectedParent.isSome text
  let stepped :=
    if targetLevel = 1 || targetLevel = 2 then
      stepSection sb.2 sb.1 detectedParent text
    else stepSubsection sb.2
  let newNumber := stepped.1
  let st5 := { stepped.2 with lastLevel := targetLevel,
                              lastHeadingText := cleanText,
                              lastHeadingNormalized := normalizeText cleanText }
  if en.1 ≠ some newNumber then
    let mdPre := if 0 < mdLvl then List.replicate mdLvl '#' ++ [' '] else []
    ({ original := text, numbered := mdPre ++ newNumber ++ ' ' :: en.2,
       number := some newNumber, level := targetLevel,
       chapter := st.currentChapter, wasRenumbered := true }, st5)
  else
    ({ original := text, numbered := text, number := some newNumber,
       level := targetLevel, chapter := st.currentChapter,
       wasRenumbered := false }, st5)

/-- `HeadingNumberer.number_heading` (source lines 1160-1313) with
`target_level=None`, returning the record and the updated state. -/
def numberHeading (st : NState) (text : List Char) : HRec × NState :=
  if 0 < parseChapterNumber text then
    ({ original := text, numbered := text, number := none, level := 1,
       chapter := parseChapterNumber text, wasRenumbered := false },
     { st with currentChapter := parseChapterNumber text, currentSection := 0,
               currentSubsection := 0, currentSubsubsection := 0,
               inAppendix := false, inParentSection := none,
               parentSectionNumber := [], lastHeadingText := [],
               lastHeadingNormalized := [] })
  else if isAppendixHeading text then
    (unnumberedRec text st.currentChapter,
     { st with inAppendix := true, currentSection := 0, currentSubsection := 0,
               inParentSection := none })
  else if isUnnumberedSection text then (unnumberedRec text st.currentChapter, st)
  else if isChapterTitle text then (unnumberedRec text st.currentChapter, st)
  else if st.currentChapter = 0 && !st.inAppendix then
    (unnumberedRec text st.currentChapter, st)
  else numberHeadingMain st text

/-- `re.match(r'^[A-Z][A-Z\s]+$', line)` plus the length bound used in
`process_document_headings` (line 1352); the line is already stripped, so
`$` needs no trailing-newline case. -/
def allCapsHeadingLine (line : List Char) : Bool :=
  match line with
  | c :: rest =>
    ('A' ≤ c && c ≤ 'Z') && !rest.isEmpty &&
      rest.all fun x => ('A' ≤ x && x ≤ 'Z') || pyIsSpace x
  | [] => false

/-- `re.match(r'^(\d+\.)+\d*\s+[A-Z]', line)` (source line 1355): a dotted
number (at least one dot, a trailing dot allowed), whitespace, then an
uppercase letter. -/
def numberedHeadingStart (line : List Char) : Bool :=
  if (line.headD ' ').isDigit then
    let p := HierarchyCorrector.numTok line
    let hasDot := p.1.contains '.'
    let step : Bool × List Char :=
      match p.2 with
      | '.' :: q => (true, q)
      | q => (hasDot, q)
    step.1 &&
      (let r := step.2
       !(r.takeWhile pyIsSpace).isEmpty &&
         (match r.dropWhile pyIsSpace with
          | c :: _ => 'A' ≤ c && c ≤ 'Z'
          | [] => false))
  else false

/-- The heading test of `process_document_headings` (source lines 1347-1357). -/
def isHeadingLine (line : List Char) : Bool :=
  startsWithL line (chars "#") ||
  (allCapsHeadingLine line && line.length ≤ 60) ||
  numberedHeadingStart line

/-- One entry of the list returned by `process_document_headings`: heading
entries carry the full record, other lines only the stripped text. -/
inductive PRec where
  | heading (r : HRec) (lineNum : Nat)
  | plain (original numbered : List Char) (lineNum : Nat)
  deriving Repr, DecidableEq

/-- The main loop of `process_document_headings` (source lines 1332-1371),
threading the numbering state line by line. -/
def pdhGo : NState → List (List Char) → Nat → List PRec
  | _, [], _ => []
  | st, l :: rest, i =>
    let line := stripL l
    if line.isEmpty then PRec.plain line line i :: pdhGo st rest (i + 1)
    else if isHeadingLine line then
      let r := numberHeading st line
      PRec.heading r.1 i :: pdhGo r.2 rest (i + 1)
    else PRec.plain line line i :: pdhGo st rest (i + 1)

/-- `HeadingNumberer.process_document_headings` (source lines 1315-1372):
`reset()` first, then the hierarchy-correction pre-pass, then the line
loop.  The incoming state argument models the instance state left over
from earlier documents. -/
def processDocumentHeadings (st : NState) (lines : List (List Char)) : List PRec :=
  pdhGo resetState (HierarchyCorrector.correctLines lines) 0

end HeadingNumberer

/-! ### A small interpreter for the Python regular expressions

The caption-detection patterns are transcribed into the `RE` syntax below
and run by a backtracking matcher with Python `re` semantics: ordered
alternation, greedy and lazy repetition, `^`/`$` anchors (with the
final-newline rule and the `re.MULTILINE` variant), and negative
lookahead.  The matcher is fuelled so that the kernel can evaluate it; the
fuel bound grows with the pattern size and the input length, and every
universal theorem below is independent of the fuel. -/

namespace Rex

/-- Regular-expression syntax: the constructs used by the transcribed
patterns. -/
inductive RE where
  | eps
  | dot
  | cls (neg : Bool) (ranges : List (Char × Char))
  | lit (s : List Char)
  | seq (a b : RE)
  | alt (a b : RE)
  | star (lazy : Bool) (a : RE)
  | opt (lazy : Bool) (a : RE)
  | bol
  | eol
  | nla (a : RE)
  | nlb1 (ranges : List (Char × Char))
  | bnd
  deriving Repr

/-- Greedy `+`. -/
def RE.plus (a : RE) : RE := .seq a (.star false a)

/-- Lazy `+?`. -/
def RE.plusLazy (a : RE) : RE := .seq a (.star true a)

/-- Sequence of several pieces. -/
def RE.cat (l : List RE) : RE := l.foldr .seq .eps

/-- Character class from an explicit character list. -/
def clsOf (cs : List Char) : RE := .cls false (cs.map fun c => (c, c))

/-- Any of several alternatives, in order; the empty class never matches. -/
def RE.oneOf (l : List RE) : RE := l.foldr .alt (.cls false [])

/-- Case-insensitive literal word. -/
def RE.litS (w : String) : RE := .lit (chars w)

/-- `a{k}`. -/
def RE.rep (k : Nat) (a : RE) : RE := RE.cat (List.replicate k a)

/-- `a{0,k}`, greedy. -/
def RE.upTo : Nat → RE → RE
  | 0, _ => .eps
  | k + 1, a => .opt false (.seq a (RE.upTo k a))

/-- `a{m,n}`, greedy. -/
def RE.between (m n : Nat) (a : RE) : RE := .seq (RE.rep m a) (RE.upTo (n - m) a)

/-- `a{m,}`, greedy. -/
def RE.atLeast (m : Nat) (a : RE) : RE := .seq (RE.rep m a) (.star false a)

/-- Structural size, used for the fuel bound. -/
def RE.size : RE → Nat
  | .eps | .dot | .bol | .eol | .bnd => 1
  | .cls _ _ => 1
  | .nlb1 _ => 1
  | .lit s => s.length + 1
  | .seq a b | .alt a b => a.size + b.size + 1
  | .star _ a | .opt _ a | .nla a => a.size + 1

/-- Case-insensitive character comparison (`re.IGNORECASE`, ASCII). -/
def chEq (ci : Bool) (a b : Char) : Bool :=
  if ci then a.toLower = b.toLower else a = b

/-- Does `c` fall in the class?  Under `re.IGNORECASE` the other casing of
`c` is also tried. -/
def inCls (ci : Bool) (neg : Bool) (ranges : List (Char × Char)) (c : Char) : Bool :=
  let base := fun x : Char => ranges.any fun r => r.1 ≤ x && x ≤ r.2
  let m := base c || (ci && (base c.toLower || base c.toUpper))
  if neg then !m else m

/-- Literal match at a position: the end position on success. -/
def litAt (ci : Bool) (s : List Char) (l : List Char) (i : Nat) : Option Nat :=
  match l with
  | [] => some i
  | c :: rest =>
    match s.get? i with
    | some d => if chEq ci c d then litAt ci s rest (i + 1) else none
    | none => none

/-- The backtracking matcher in continuation style.  `k` receives the end
position of the piece just matched; alternatives and repetitions follow the
preference order of Python `re` (ordered alternation, greedy repetition
tries longer first, lazy tries shorter first, and a starred piece stops on
an empty iteration). -/
def reRun (ci ml : Bool) (s : List Char) :
    Nat → RE → Nat → (Nat → Option Nat) → Option Nat
  | 0, _, _, _ => none
  | fuel + 1, r, i, k =>
    match r with
    | .eps => k i
    | .dot =>
      match s.get? i with
      | some c => if c = '\n' then none else k (i + 1)
      | none => none
    | .cls neg ranges =>
      match s.get? i with
      | some c => if inCls ci neg ranges c then k (i + 1) else none
      | none => none
    | .lit l =>
      match litAt ci s l i with
      | some j => k j
      | none => none
    | .seq a b => reRun ci ml s fuel a i fun j => reRun ci ml s fuel b j k
    | .alt a b => (reRun ci ml s fuel a i k).orElse fun _ => reRun ci ml s fuel b i k
    | .opt lazy a =>
      if lazy then (k i).orElse fun _ => reRun ci ml s fuel a i k
      else (reRun ci ml s fuel a i k).orElse fun _ => k i
    | .star lazy a =>
      if lazy then
        (k i).orElse fun _ =>
          reRun ci ml s fuel a i fun j =>
            if i < j then reRun ci ml s fuel (.star lazy a) j k else none
      else
        (reRun ci ml s fuel a i fun j =>
          if i < j then reRun ci ml s fuel (.star lazy a) j k else none).orElse
          fun _ => k i
    | .bol => if i = 0 || (ml && s.get? (i - 1) = some '\n') then k i else none
    | .eol =>
      if i = s.length || (i = s.length - 1 && s.get? i = some '\n') ||
          (ml && s.get? i = some '\n') then k i
      else none
    | .nla a =>
      match reRun ci ml s fuel a i fun j => some j with
      | some _ => none
      | none => k i
    | .nlb1 ranges =>
      match i with
      | 0 => k i
      | j + 1 =>
        match s.get? j with
        | some c => if inCls ci false ranges c then none else k i
        | none => k i
    | .bnd =>
      let w : Option Char → Bool := fun o =>
        match o with
        | some c => pyIsWord c
        | none => false
      let before : Option Char := match i with | 0 => none | j + 1 => s.get? j
      if w before ≠ w (s.get? i) then k i else none

/-- Fuel that amply covers the search depth of the matcher. -/
def reFuel (p : RE) (s : List Char) : Nat := 4 * (p.size + 4) * (s.length + 4)

/-- End position of the preferred match of `p` at position `i`
(`re.match`-style, not anchored to the end). -/
def reMatchEnd (ci ml : Bool) (p : RE) (s : List Char) (i : Nat) : Option Nat :=
  reRun ci ml s (reFuel p s) p i fun j => some j

/-- `re.finditer`: non-overlapping matches scanning left to right, each as
a `(start, end)` span; an empty match advances the scan by one. -/
def finditerGo (ci ml : Bool) (p : RE) (s : List Char) : Nat → Nat → List (Nat × Nat)
  | 0, _ => []
  | fuel + 1, i =>
    if s.length < i then []
    else
      match reMatchEnd ci ml p s i with
      | some e =>
        (i, e) :: finditerGo ci ml p s fuel (if i < e then e else i + 1)
      | none => finditerGo ci ml p s fuel (i + 1)

/-- All `(start, end)` spans found by `re.finditer`. -/
def reFinditer (ci ml : Bool) (p : RE) (s : List Char) : List (Nat × Nat) :=
  finditerGo ci ml p s (s.length + 2) 0

/-- `re.search` as a Boolean: some match at some position. -/
def reSearch (ci ml : Bool) (p : RE) (s : List Char) : Bool :=
  !(reFinditer ci ml p s).isEmpty

/-- `re.match` as a Boolean: a match starting at position 0. -/
def reMatchB (ci ml : Bool) (p : RE) (s : List Char) : Bool :=
  (reMatchEnd ci ml p s 0).isSome

/-- `\s` as a class. -/
def wsCls : RE := clsOf [' ', '\t', '\n', '\r', '\x0b', '\x0c']

/-- `\d` as a class. -/
def digCls : RE := .cls false [('0', '9')]

/-- `\w` as a class (ASCII). -/
def wordCls : RE := .cls false [('a', 'z'), ('A', 'Z'), ('0', '9'), ('_', '_')]

/-- `\d+(?:\.\d+)*`. -/
def numRE : RE := .seq (RE.plus digCls) (.star false (.seq (.lit ['.']) (RE.plus digCls)))

/-- `\d+(?:\.\d+)?`. -/
def numOptSubRE : RE := .seq (RE.plus digCls) (.opt false (.seq (.lit ['.']) (RE.plus digCls)))

end Rex

/-! ### FigureFormatter and TableFormatter caption detection -/

namespace FigureFormatter

open Rex

/-- `(?:Figure|Fig(?:\.|\s+)?)`. -/
def figKw : RE :=
  .alt (.lit (chars "Figure"))
    (.seq (.lit (chars "Fig")) (.opt false (.alt (.lit ['.']) (RE.plus wsCls))))

/-- `FigureFormatter.FIGURE_TITLE_PATTERN` (source lines 1432-1435):
`^\s*(?:Figure|Fig(?:\.|\s+)?)\s*(\d+(?:\.\d+)*)\s*[\.:]\s*(.+?)(?:\n|$)`,
`IGNORECASE | MULTILINE`. -/
def FIGURE_TITLE_PATTERN : RE :=
  RE.cat [.bol, .star false wsCls, figKw, .star false wsCls, numRE,
    .star false wsCls, clsOf ['.', ':'], .star false wsCls,
    RE.plusLazy .dot, .alt (.lit ['\n']) .eol]

/-- `FigureFormatter.FIG_DECIMAL_PATTERN` (source lines 1411-1414):
`Fig\s+(\d+\.\d{1,3})\s*:\s*(.+)`, `IGNORECASE`. -/
def FIG_DECIMAL_PATTERN : RE :=
  RE.cat [.lit (chars "Fig"), RE.plus wsCls, RE.plus digCls, .lit ['.'],
    digCls, .opt false (.seq digCls (.opt false digCls)),
    .star false wsCls, .lit [':'], .star false wsCls, RE.plus .dot]

/-- `FigureFormatter.NO_SPACE_PATTERN` (source lines 1425-1428):
`(?:Figure|Fig\.?)(\d+(?:\.\d+)*)\s*:\s*(.+)`, `IGNORECASE`. -/
def NO_SPACE_PATTERN : RE :=
  RE.cat [.alt (.lit (chars "Figure")) (.seq (.lit (chars "Fig")) (.opt false (.lit ['.']))),
    numRE, .star false wsCls, .lit [':'], .star false wsCls, RE.plus .dot]

/-- `FigureFormatter.LIST_FIGURE_PATTERN` (source lines 1452-1455):
`^\s*(?:[-•*\d]\.?\s+)?(?:Figure|Fig(?:\.|\s+)?)\s+(\d+(?:\.\d+)*)\s*[\.:]\s*(.+)`,
`IGNORECASE | MULTILINE`. -/
def LIST_FIGURE_PATTERN : RE :=
  RE.cat [.bol, .star false wsCls,
    .opt false (RE.cat [.cls false [('-', '-'), ('•', '•'), ('*', '*'), ('0', '9')],
      .opt false (.lit ['.']), RE.plus wsCls]),
    figKw, RE.plus wsCls, numRE, .star false wsCls, clsOf ['.', ':'],
    .star false wsCls, RE.plus .dot]

/-- `FigureFormatter.TECHNICAL_FIGURE_PATTERN` (source lines 1472-1475):
`(?:Figure|Fig(?:\.|\s+)?)\s+(\d+(?:\.\d+)*)\s*[\.:]\s*([^:\n]*?(?:dashboard|chart|graph|diagram|map|model|framework|flow|process)[^:\n]*)`,
`IGNORECASE`. -/
def TECHNICAL_FIGURE_PATTERN : RE :=
  RE.cat [figKw, RE.plus wsCls, numRE, .star false wsCls, clsOf ['.', ':'],
    .star false wsCls, .star true (.cls true [(':', ':'), ('\n', '\n')]),
    .alt (.lit (chars "dashboard")) (.alt (.lit (chars "chart"))
      (.alt (.lit (chars "graph")) (.alt (.lit (chars "diagram"))
        (.alt (.lit (chars "map")) (.alt (.lit (chars "model"))
          (.alt (.lit (chars "framework")) (.alt (.lit (chars "flow"))
            (.lit (chars "process"))))))))),
    .star false (.cls true [(':', ':'), ('\n', '\n')])]

/-- `FigureFormatter.WHITESPACE_VARIATION_PATTERN` (source lines 1418-1421):
`(?:Figure|Fig\.?)\s*(\d+(?:\.\d+)*)\s*[\.:]?\s*(?!\d)`, `IGNORECASE`. -/
def WHITESPACE_VARIATION_PATTERN : RE :=
  RE.cat [.alt (.lit (chars "Figure")) (.seq (.lit (chars "Fig")) (.opt false (.lit ['.']))),
    .star false wsCls, numRE, .star false wsCls, .opt false (clsOf ['.', ':']),
    .star false wsCls, .nla digCls]

/-- The six detection passes of `detect_figures` (source lines 1605-1618),
in order, with their `re.MULTILINE` flag. -/
def figurePasses : List (String × RE × Bool) :=
  [ ("FIGURE_TITLE_PATTERN", FIGURE_TITLE_PATTERN, true),
    ("FIG_DECIMAL_PATTERN", FIG_DECIMAL_PATTERN, false),
    ("NO_SPACE_PATTERN", NO_SPACE_PATTERN, false),
    ("LIST_FIGURE_PATTERN", LIST_FIGURE_PATTERN, true),
    ("TECHNICAL_FIGURE_PATTERN", TECHNICAL_FIGURE_PATTERN, false),
    ("WHITESPACE_VARIATION_PATTERN", WHITESPACE_VARIATION_PATTERN, false) ]

/-- One detected caption entry: the matched span and the pattern that
produced it (the dict of source lines 1631-1640, restricted to the fields
the validation claims concern). -/
structure DetEntry where
  startPos : Nat
  endPos : Nat
  patternName : String
  deriving Repr, DecidableEq

/-- The inner loop of `detect_figures`: record each match span unless the
identical `(start, end)` span was already seen. -/
def addMatches (name : String) (ms : List (Nat × Nat))
    (acc : List (Nat × Nat) × List DetEntry) : List (Nat × Nat) × List DetEntry :=
  ms.foldl
    (fun acc se =>
      if acc.1.contains se then acc
      else (se :: acc.1, acc.2 ++ [⟨se.1, se.2, name⟩]))
    acc

/-- A numbering issue (source lines 1750-1770): the list of missing leading
integers, or the list of repeated literal number strings. -/
inductive FigIssue where
  | missing (ns : List Nat)
  | duplicates (ns : List (List Char))
  deriving Repr, DecidableEq

/-- The state of one `FigureFormatter` relevant to numbering validation:
`figure_numbers` and `numbering_issues` (source lines 1582-1588). -/
structure FigState where
  figureNumbers : List (List Char)
  numberingIssues : List FigIssue
  deriving Repr, DecidableEq

/-- Hand-compiled `FIGURE_NUMBER_PATTERN` (source lines 1516-1519):
`(?:Figure|Fig(?:\.|\s+)?)\s*(\d+(?:\.\d+)?)`, `IGNORECASE`; returns the
match end and the group-1 digits. -/
def figNumAt (s : List Char) (i : Nat) : Option (Nat × List Char) :=
  let cont : Nat → Option (Nat × List Char) := fun j =>
    let j3 := j + ((s.drop j).takeWhile pyIsSpace).length
    let ds := (s.drop j3).takeWhile Char.isDigit
    if ds.isEmpty then none
    else
      let j4 := j3 + ds.length
      if s.get? j4 = some '.' && ((s.drop (j4 + 1)).takeWhile Char.isDigit) ≠ [] then
        let ds2 := (s.drop (j4 + 1)).takeWhile Char.isDigit
        some (j4 + 1 + ds2.length, ds ++ '.' :: ds2)
      else some (j4, ds)
  let ciStarts : String → Bool := fun w =>
    startsWithL (lowerL (s.drop i)) (chars w)
  ((if ciStarts "figure" then cont (i + 6) else none).orElse fun _ =>
    if ciStarts "fig" then
      let j := i + 3
      ((if s.get? j = some '.' then cont (j + 1) else none).orElse fun _ =>
        (let sp := ((s.drop j).takeWhile pyIsSpace).length
         if 0 < sp then cont (j + sp) else none)).orElse fun _ => cont j
    else none)

/-- `re.finditer` over the hand-compiled number pattern, collecting the
group-1 number strings. -/
def figNumFinditerGo (s : List Char) : Nat → Nat → List (List Char)
  | 0, _ => []
  | fuel + 1, i =>
    if s.length < i then []
    else
      match figNumAt s i with
      | some (e, g) => g :: figNumFinditerGo s fuel (if i < e then e else i + 1)
      | none => figNumFinditerGo s fuel (i + 1)

/-- All group-1 numbers of `FIGURE_NUMBER_PATTERN` in the text. -/
def figNumbersIn (s : List Char) : List (List Char) :=
  figNumFinditerGo s (s.length + 2) 0

/-- The number-tracking fold of `detect_figures` (source lines 1643-1646):
append each number unless already present. -/
def trackNums (init : List (List Char)) (gs : List (List Char)) : List (List Char) :=
  gs.foldl (fun acc g => if acc.contains g then acc else acc ++ [g]) init

/-- `FigureFormatter.detect_figures` (source lines 1590-1648): six
deduplicated detection passes, then number tracking for validation. -/
def detectFigures (st : FigState) (text : List Char) : List DetEntry × FigState :=
  let acc := figurePasses.foldl
    (fun acc p => addMatches p.1 (reFinditer true p.2.2 p.2.1 text) acc)
    (([] : List (Nat × Nat)), ([] : List DetEntry))
  (acc.2, { st with figureNumbers := trackNums st.figureNumbers (figNumbersIn text) })

/-- Python `int` restricted to the digit strings produced by the number
patterns (`int` would raise on anything else, modelled as `none`). -/
def pyIntNat (s : List Char) : Option Nat :=
  if !s.isEmpty && s.all Char.isDigit then some (HeadingNumberer.natOfDigits s) else none

/-- Python `str.split('.')`. -/
def splitDot : List Char → List (List Char)
  | [] => [[]]
  | '.' :: r => [] :: splitDot r
  | c :: r =>
    match splitDot r with
    | h :: t => (c :: h) :: t
    | [] => [[c]]

/-- The per-number parse of `validate_numbering` (source lines 1734-1740):
`(int(parts[0]), int(parts[1]), num)` when the number has a dot, else
`(int(num), 0, num)`. -/
def parseFig (num : List Char) : Option (Nat × Nat × List Char) :=
  if num.contains '.' then
    match splitDot num with
    | p0 :: p1 :: _ =>
      match pyIntNat p0, pyIntNat p1 with
      | some a, some b => some (a, b, num)
      | _, _ => none
    | _ => none
  else (pyIntNat num).map fun a => (a, 0, num)

/-- The duplicate scan of `validate_numbering` (source lines 1757-1763):
every repeat occurrence of a literal number string, in order. -/
def dupScan (seen : List (List Char)) : List (List Char) → List (List Char)
  | [] => []
  | n :: r => if seen.contains n then n :: dupScan seen r else dupScan (n :: seen) r

/-- The validation outcome: the `valid` flag and the collected issues (the
returned dict also repeats `figure_numbers`, which the state keeps). -/
structure VOut where
  valid : Bool
  issues : List FigIssue
  deriving Repr, DecidableEq

/-- `FigureFormatter.validate_numbering` (source lines 1720-1777): parse
leading integers, report the gaps of the dense range `1..max` and every
repeated literal number string; `none` models the `ValueError` that
`int()` would raise on a non-numeric entry.  The sort of the parsed list
(source line 1743) does not affect the outputs modelled here and is
omitted. -/
def validateNumbering (st : FigState) : Option (VOut × FigState) :=
  if st.figureNumbers.isEmpty then some (⟨true, []⟩, { st with numberingIssues := [] })
  else
    match st.figureNumbers.mapM parseFig with
    | none => none
    | some parsed =>
      let firsts := parsed.map fun p => p.1
      let maxLead := firsts.foldl max 0
      let missing := (List.range' 1 maxLead).filter fun n => !firsts.contains n
      let dups := dupScan [] st.figureNumbers
      let issues :=
        (if missing.isEmpty then [] else [FigIssue.missing missing]) ++
        (if dups.isEmpty then [] else [FigIssue.duplicates dups])
      some (⟨issues.isEmpty, issues⟩, { st with numberingIssues := issues })

end FigureFormatter

namespace TableFormatter

open Rex

/-- `(?:Table|Tbl\.?|Tab\.?)`. -/
def tblKw : RE :=
  .alt (.lit (chars "Table"))
    (.alt (.seq (.lit (chars "Tbl")) (.opt false (.lit ['.'])))
      (.seq (.lit (chars "Tab")) (.opt false (.lit ['.']))))

/-- `TableFormatter.TABLE_TITLE_PATTERN` (source lines 1934-1937):
`^\s*(?:Table|Tbl\.?|Tab\.?)\s*(\d+(?:\.\d+)*)\s*[\.:]\s*(.+?)(?:\n|$)`,
`IGNORECASE | MULTILINE`. -/
def TABLE_TITLE_PATTERN : RE :=
  RE.cat [.bol, .star false wsCls, tblKw, .star false wsCls, numRE,
    .star false wsCls, clsOf ['.', ':'], .star false wsCls,
    RE.plusLazy .dot, .alt (.lit ['\n']) .eol]

/-- Builds the `(.+?(?:kw1|kw2|...)[^:\n]*)` tail shared by the keyword
table patterns. -/
def kwTail (kws : List String) : RE :=
  RE.cat [RE.plusLazy .dot,
    (kws.map fun w => RE.lit (chars w)).foldr .alt (.cls false []),
    .star false (.cls true [(':', ':'), ('\n', '\n')])]

/-- `TableFormatter.STATISTICAL_TABLE_PATTERN` (source lines 1967-1970):
`(?:Table|Tbl\.?|Tab\.?)\s+(\d+(?:\.\d+)*)\s*[\.:]\s*(.+?(?:mean|SD|SE|p-value|F-value|t-test|ANOVA|regression|correlation)[^:\n]*)`,
`IGNORECASE`. -/
def STATISTICAL_TABLE_PATTERN : RE :=
  RE.cat [tblKw, RE.plus wsCls, numRE, .star false wsCls, clsOf ['.', ':'],
    .star false wsCls,
    kwTail ["mean", "SD", "SE", "p-value", "F-value", "t-test", "ANOVA",
      "regression", "correlation"]]

/-- `TableFormatter.NO_SPACE_PATTERN` (source lines 1974-1977):
`(?:Table|Tbl\.?|Tab\.?)(\d+(?:\.\d+)*)\s*:\s*(.+)`, `IGNORECASE`. -/
def NO_SPACE_PATTERN : RE :=
  RE.cat [tblKw, numRE, .star false wsCls, .lit [':'], .star false wsCls,
    RE.plus .dot]

/-- `TableFormatter.LIST_TABLE_PATTERN` (source lines 1961-1964):
`^\s*(?:[-•*\d]\.?\s+)?(?:Table|Tbl\.?|Tab\.?)\s+(\d+(?:\.\d+)*)\s*[\.:]\s*(.+)`,
`IGNORECASE | MULTILINE`. -/
def LIST_TABLE_PATTERN : RE :=
  RE.cat [.bol, .star false wsCls,
    .opt false (RE.cat [.cls false [('-', '-'), ('•', '•'), ('*', '*'), ('0', '9')],
      .opt false (.lit ['.']), RE.plus wsCls]),
    tblKw, RE.plus wsCls, numRE, .star false wsCls, clsOf ['.', ':'],
    .star false wsCls, RE.plus .dot]

/-- `TableFormatter.SUMMARY_TABLE_PATTERN` (source lines 1987-1990):
`(?:Table|Tbl\.?|Tab\.?)\s+(\d+(?:\.\d+)*)\s*[\.:]\s*(.+?(?:summary|descriptive|demographic|characteristics|overview)[^:\n]*)`,
`IGNORECASE`. -/
def SUMMARY_TABLE_PATTERN : RE :=
  RE.cat [tblKw, RE.plus wsCls, numRE, .star false wsCls, clsOf ['.', ':'],
    .star false wsCls,
    kwTail ["summary", "descriptive", "demographic", "characteristics", "overview"]]

/-- `TableFormatter.COMPARISON_TABLE_PATTERN` (source lines 1993-1996):
`(?:Table|Tbl\.?|Tab\.?)\s+(\d+(?:\.\d+)*)\s*[\.:]\s*(.+?(?:comparison|contrast|vs\.|versus|between|among)[^:\n]*)`,
`IGNORECASE`. -/
def COMPARISON_TABLE_PATTERN : RE :=
  RE.cat [tblKw, RE.plus wsCls, numRE, .star false wsCls, clsOf ['.', ':'],
    .star false wsCls,
    kwTail ["comparison", "contrast", "vs.", "versus", "between", "among"]]

/-- `TableFormatter.WHITESPACE_VARIATION_PATTERN` (source lines 1981-1984):
`(?:Table|Tbl\.?|Tab\.?)\s*(\d+(?:\.\d+)*)\s*[\.:]?\s*(?!\d)`, `IGNORECASE`. -/
def WHITESPACE_VARIATION_PATTERN : RE :=
  RE.cat [tblKw, .star false wsCls, numRE, .star false wsCls,
    .opt false (clsOf ['.', ':']), .star false wsCls, .nla digCls]

/-- The seven detection passes of `detect_tables` (source lines 2096-2111),
in order, with their `re.MULTILINE` flag. -/
def tablePasses : List (String × RE × Bool) :=
  [ ("TABLE_TITLE_PATTERN", TABLE_TITLE_PATTERN, true),
    ("STATISTICAL_TABLE_PATTERN", STATISTICAL_TABLE_PATTERN, false),
    ("NO_SPACE_PATTERN", NO_SPACE_PATTERN, false),
    ("LIST_TABLE_PATTERN", LIST_TABLE_PATTERN, true),
    ("SUMMARY_TABLE_PATTERN", SUMMARY_TABLE_PATTERN, false),
    ("COMPARISON_TABLE_PATTERN", COMPARISON_TABLE_PATTERN, false),
    ("WHITESPACE_VARIATION_PATTERN", WHITESPACE_VARIATION_PATTERN, false) ]

/-- `TableFormatter.detect_tables` (source lines 2081-2141), restricted to
the deduplicated caption entries (the table-number tracking mirrors the
figure variant and is not needed by the claims). -/
def detectTables (text : List Char) : List FigureFormatter.DetEntry :=
  (tablePasses.foldl
    (fun acc p => FigureFormatter.addMatches p.1 (reFinditer true p.2.2 p.2.1 text) acc)
    (([] : List (Nat × Nat)), ([] : List FigureFormatter.DetEntry))).2

end TableFormatter

/-! ### PatternEngine: the line classifier -/

namespace PatternEngine

open Rex

/-- `\s*`. -/
def sp0 : RE := .star false wsCls

/-- `\s+`. -/
def sp1 : RE := RE.plus wsCls

/-- `\d+`. -/
def d1 : RE := RE.plus digCls

/-- `[A-Z]`. -/
def AZ : RE := .cls false [('A', 'Z')]

/-- `[a-z]`. -/
def az : RE := .cls false [('a', 'z')]

/-- `[A-Za-z]`. -/
def AZaz : RE := .cls false [('A', 'Z'), ('a', 'z')]

/-- Literal dot. -/
def dotL : RE := .lit ['.']

/-- Run every `(pattern, ignorecase)` pair as `re.match` and take the first
hit (Boolean, so any hit). -/
def anyMatch (ps : List (RE × Bool)) (t : List Char) : Bool :=
  ps.any fun p => reMatchB p.2 false p.1 t

/-- Run every `(pattern, ignorecase)` pair as `re.search`. -/
def anySearch (ps : List (RE × Bool)) (t : List Char) : Bool :=
  ps.any fun p => reSearch p.2 false p.1 t

/-- `str.rstrip(chars)`. -/
def rstripSet (cs : List Char) (s : List Char) : List Char :=
  (s.reverse.dropWhile fun c => cs.contains c).reverse

/-- Generic leftmost-scan `re.sub` driver: `m` reports the length of a
match starting here and its replacement (every matcher consumes at least
one character).  Fuel `s.length` suffices. -/
def scanSub (m : List Char → Option (Nat × List Char)) : Nat → List Char → List Char
  | 0, _ => []
  | _, [] => []
  | f + 1, c :: r =>
    match m (c :: r) with
    | some (k, repl) => repl ++ scanSub m f ((c :: r).drop k)
    | none => c :: scanSub m f r

/-- Matcher for `\s{2,}` (replacement one space). -/
def mWs2 (s : List Char) : Option (Nat × List Char) :=
  let sp := s.takeWhile pyIsSpace
  if 2 ≤ sp.length then some (sp.length, [' ']) else none

/-- Matcher for `\s+:` (replacement `:`). -/
def mWsColon (s : List Char) : Option (Nat × List Char) :=
  let sp := s.takeWhile pyIsSpace
  if 1 ≤ sp.length && s.get? sp.length = some ':' then some (sp.length + 1, [':'])
  else none

/-- Matcher for `:\s{2,}` (replacement `: `). -/
def mColonWs2 (s : List Char) : Option (Nat × List Char) :=
  match s with
  | ':' :: r =>
    let sp := r.takeWhile pyIsSpace
    if 2 ≤ sp.length then some (1 + sp.length, [':', ' ']) else none
  | _ => none

/-- Matcher for `\s+-\s+` (replacement ` - `). -/
def mWsDashWs (s : List Char) : Option (Nat × List Char) :=
  let sp := s.takeWhile pyIsSpace
  if 1 ≤ sp.length && s.get? sp.length = some '-' then
    let r := s.drop (sp.length + 1)
    let sp2 := r.takeWhile pyIsSpace
    if 1 ≤ sp2.length then some (sp.length + 1 + sp2.length, [' ', '-', ' ']) else none
  else none

/-- Matcher for `\s{2,}-` (replacement ` -`). -/
def mWs2Dash (s : List Char) : Option (Nat × List Char) :=
  let sp := s.takeWhile pyIsSpace
  if 2 ≤ sp.length && s.get? sp.length = some '-' then
    some (sp.length + 1, [' ', '-'])
  else none

/-- Matcher for `-\s{2,}` (replacement `- `). -/
def mDashWs2 (s : List Char) : Option (Nat × List Char) :=
  match s with
  | '-' :: r =>
    let sp := r.takeWhile pyIsSpace
    if 2 ≤ sp.length then some (1 + sp.length, ['-', ' ']) else none
  | _ => none

/-- `PatternEngine.clean_heading_spaces` (source lines 3621-3665): on
heading lines, strip trailing whitespace, drop trailing ` .,:;` from the
content, and normalise the spacing around colons and hyphens. -/
def cleanHeadingSpaces (text : List Char) : List Char :=
  let t1 := rstripL text
  if !(startsWithL (lstripL t1) (chars "#")) then t1
  else
    let sp := t1.takeWhile pyIsSpace
    let afterSp := t1.dropWhile pyIsSpace
    let hashes := afterSp.takeWhile fun c => c = '#'
    let afterH := afterSp.dropWhile fun c => c = '#'
    let sp2 := afterH.takeWhile pyIsSpace
    let pre := sp ++ hashes ++ sp2
    let c0 := afterH.dropWhile pyIsSpace
    let c1 := rstripSet [' ', '.', ',', ':', ';'] c0
    let c2 := scanSub mWs2 c1.length c1
    let c3 := scanSub mWsColon c2.length c2
    let c4 := scanSub mColonWs2 c3.length c3
    let c5 := scanSub mWsDashWs c4.length c4
    let c6 := scanSub mWs2Dash c5.length c5
    let c7 := scanSub mDashWs2 c6.length c6
    pre ++ c7

/-- The slice of the analysis dict built by `analyze_line` that the claims
concern: the classification type, the heading level, and the confidence
(scaled by 100 to stay in `Nat`).  The remaining keys (`content`, spans,
subtypes, page-break and centering flags) do not feed back into the
classification. -/
structure Analysis where
  type : String
  level : Nat
  confidence : Nat
  deriving Repr, DecidableEq

/-- `table_marker` patterns (source lines 2788-2794). -/
def TABLE_MARKER_PATTERNS : List (RE × Bool) :=
  [ (RE.cat [.bol, RE.litS "[TABLE", sp0, RE.litS "START]"], true),
    (RE.cat [.bol, RE.litS "[TABLE", sp0, RE.litS "END]"], true),
    (RE.cat [.bol, RE.litS "Table", sp1, d1], true),
    (RE.cat [.bol, RE.litS "TABLE", sp1, d1], true),
    (RE.cat [.bol, RE.litS "Tabel", sp1, d1], true) ]

/-- `table_row` patterns (source lines 2796-2799). -/
def TABLE_ROW_PATTERNS : List (RE × Bool) :=
  [ (RE.cat [.bol, .lit ['|'], RE.plus (.seq (RE.plus .dot) (.lit ['|'])), .eol], false),
    (RE.cat [.bol, .lit ['|'],
      RE.plus (.cls false [(' ', ' '), ('\t', '\t'), ('\n', '\n'), ('\r', '\r'),
        ('\x0b', '\x0b'), ('\x0c', '\x0c'), ('-', '-'), (':', ':')]),
      .lit ['|'], .eol], false) ]

/-- `^\|[\s\-:]+\|` (source line 4777), the table-separator sub-check. -/
def TABLE_SEP_CHECK : RE :=
  RE.cat [.bol, .lit ['|'],
    RE.plus (.cls false [(' ', ' '), ('\t', '\t'), ('\n', '\n'), ('\r', '\r'),
      ('\x0b', '\x0b'), ('\x0c', '\x0c'), ('-', '-'), (':', ':')]),
    .lit ['|']]

/-- `(ONE|TWO|...|TEN|\d+|[IVXLC]+)` from the engine chapter patterns
(source lines 4555, 4561). -/
def chapNumAlt : RE :=
  RE.oneOf [RE.litS "ONE", RE.litS "TWO", RE.litS "THREE", RE.litS "FOUR",
    RE.litS "FIVE", RE.litS "SIX", RE.litS "SEVEN", RE.litS "EIGHT",
    RE.litS "NINE", RE.litS "TEN", d1,
    RE.plus (.cls false [('I', 'I'), ('V', 'V'), ('X', 'X'), ('L', 'L'), ('C', 'C')])]

/-- `PatternEngine.is_chapter_heading` (source lines 4543-4566), as the
Boolean the classifier consumes: chapter with a title on the same line, or
the bare chapter heading. -/
def isChapterHeadingE (t : List Char) : Bool :=
  let clean := stripL (stripMd t)
  reMatchB true false
    (RE.cat [.bol, RE.litS "CHAPTER", sp1, chapNumAlt, sp0,
      clsOf [':', '-', '.'], sp0, RE.plus .dot, .eol]) clean ||
  reMatchB true false
    (RE.cat [.bol, RE.litS "CHAPTER", sp1, chapNumAlt, sp0, .eol]) clean

/-- `chapter_title_keywords` of `PatternEngine.is_chapter_title` (source
lines 4589-4596). -/
def CHAPTER_TITLE_KEYWORDS_E : List (List Char) :=
  [ chars "INTRODUCTION", chars "LITERATURE REVIEW", chars "METHODOLOGY", chars "METHODS",
    chars "RESULTS", chars "DISCUSSION", chars "CONCLUSION", chars "CONCLUSIONS",
    chars "RECOMMENDATIONS", chars "THEORETICAL FRAMEWORK", chars "RESEARCH METHODOLOGY",
    chars "SUMMARY AND CONCLUSIONS", chars "SUMMARY OF FINDINGS", chars "DATA ANALYSIS",
    chars "BACKGROUND", chars "PROBLEM STATEMENT", chars "RESEARCH DESIGN",
    chars "FINDINGS AND DISCUSSION", chars "ANALYSIS AND INTERPRETATION" ]

/-- `PatternEngine.is_chapter_title` (source lines 4568-4613). -/
def isChapterTitleE (t : List Char) (prevWasChapter : Bool) : Bool :=
  let clean := stripL (stripMd t)
  if 100 < clean.length then false
  else if clean.isEmpty then false
  else
    CHAPTER_TITLE_KEYWORDS_E.contains (upperL clean) ||
    (clean == upperL clean && 5 < clean.length && clean.any Char.isAlpha) ||
    (prevWasChapter &&
      reMatchB false false
        (RE.cat [.bol, AZ, RE.plus (.cls false [('A', 'Z'), ('a', 'z'), (' ', ' '),
          ('\t', '\t'), ('\n', '\n'), ('\r', '\r'), ('\x0b', '\x0b'), ('\x0c', '\x0c')]),
          .eol]) clean)

/-- The keys of `front_matter_sections` in
`PatternEngine.get_front_matter_section_type` (source lines 4695-4722). -/
def FRONT_MATTER_KEYS : List (List Char) :=
  [ chars "DECLARATION", chars "CERTIFICATION", chars "APPROVAL PAGE",
    chars "COMMITTEE APPROVAL", chars "DEDICATION", chars "ACKNOWLEDGEMENTS",
    chars "ACKNOWLEDGMENTS", chars "ACKNOWLEDGEMENT", chars "ACKNOWLEDGMENT",
    chars "ABSTRACT", chars "RESUME", chars "RÉSUMÉ", chars "RÉSUME", chars "RESUMÉ",
    chars "TABLE OF CONTENTS", chars "CONTENTS", chars "LIST OF TABLES",
    chars "LIST OF FIGURES", chars "LIST OF ABBREVIATIONS", chars "ABBREVIATIONS",
    chars "LIST OF ACRONYMS", chars "GLOSSARY", chars "APPENDIX", chars "APPENDICES",
    chars "REFERENCES", chars "BIBLIOGRAPHY" ]

/-- `PatternEngine.get_front_matter_section_type` (source lines 4684-4728)
as a Boolean. -/
def isFrontMatterE (t : List Char) : Bool :=
  FRONT_MATTER_KEYS.any fun k => upperL (stripL (stripMd t)) == k

/-- `copyright_content` patterns (source lines 3126-3132). -/
def COPYRIGHT_PATTERNS : List (RE × Bool) :=
  [ (RE.cat [.bol, sp0, .lit ['©'], sp0, RE.litS "copyright", sp1], true),
    (RE.cat [.bol, sp0, RE.litS "copyright", sp1, .lit ['©']], true),
    (RE.cat [.bol, sp0, RE.litS "copyright", sp1, RE.rep 4 digCls], true),
    (RE.cat [.bol, sp0, RE.litS "All", sp1, RE.litS "Rights", sp1, RE.litS "Reserved",
      sp0, .opt false dotL, sp0, .eol], true),
    (RE.cat [.bol, sp0, RE.litS "No", sp1, RE.litS "part", sp1, RE.litS "of", sp1,
      RE.litS "this", sp1,
      RE.oneOf [RE.litS "document", RE.litS "thesis", RE.litS "dissertation",
        RE.litS "work"]], true) ]

/-- `signature_line` patterns (source lines 3161-3168). -/
def SIGNATURE_PATTERNS : List (RE × Bool) :=
  [ (RE.cat [.bol, sp0, RE.atLeast 10 (.lit ['_']), sp0, .eol], false),
    (RE.cat [.bol, sp0, RE.atLeast 10 dotL, sp0, .eol], false),
    (RE.cat [.bol, sp0, RE.atLeast 10 (.lit ['-']), sp0, .eol], false),
    (RE.cat [.bol, sp0, .alt (.seq (RE.litS "Signe") (.opt false (RE.litS "d")))
      (RE.litS "Signature"), sp0, .lit [':'], sp0, RE.atLeast 5 (.lit ['_'])], true),
    (RE.cat [.bol, sp0, RE.litS "Date", sp0, .lit [':'], sp0, RE.atLeast 5 (.lit ['_'])], true),
    (RE.cat [.bol, sp0, RE.litS "Name", sp0, .lit [':'], sp0, RE.atLeast 5 (.lit ['_'])], true) ]

/-- `toc_entry` patterns (source lines 3179-3184). -/
def TOC_ENTRY_PATTERNS : List (RE × Bool) :=
  [ (RE.cat [.bol, RE.plus .dot, RE.atLeast 3 dotL, sp0, d1, sp0, .eol], false),
    (RE.cat [.bol, RE.plus .dot, sp1, RE.atLeast 2 dotL, sp0, d1, sp0, .eol], false),
    (RE.cat [.bol, sp0, RE.plus (.cls false [('I', 'I'), ('V', 'V'), ('X', 'X'),
      ('L', 'L'), ('C', 'C')]), sp1, RE.plus .dot, sp1, d1, sp0, .eol], false),
    (RE.cat [.bol, sp0, d1, dotL, .star false digCls, sp1, RE.plus .dot, sp1, d1,
      sp0, .eol], false) ]

/-- `PatternEngine.is_toc_entry` (source lines 4667-4682). -/
def isTocEntryE (t : List Char) : Bool :=
  let clean := stripL t
  anyMatch TOC_ENTRY_PATTERNS clean ||
    hasSub clean (chars ".....") || hasSub clean (chars "…..")

/-- `heading_1` patterns (source lines 2707-2720); patterns 1 and 5 are
case-sensitive, the rest carry `re.IGNORECASE`. -/
def HEADING1_PATTERNS : List (RE × Bool) :=
  [ (RE.cat [.bol, AZ, RE.between 2 49 (.cls false [('A', 'Z'), (' ', ' '), ('\t', '\t'),
      ('\n', '\n'), ('\r', '\r'), ('\x0b', '\x0b'), ('\x0c', '\x0c')]), .eol], false),
    (RE.cat [.bol, RE.litS "CHAPTER", sp1, d1, .star false .dot, .eol], true),
    (RE.cat [.bol, RE.litS "PART", sp1,
      RE.plus (.cls false [('I', 'I'), ('V', 'V'), ('X', 'X')]), .star false .dot, .eol], true),
    (RE.cat [.bol, RE.litS "PART", sp1, d1, .star false .dot, .eol], true),
    (RE.cat [.bol, d1, dotL, sp1, AZ, RE.plus (.cls false [('A', 'Z'), (' ', ' '),
      ('\t', '\t'), ('\n', '\n'), ('\r', '\r'), ('\x0b', '\x0b'), ('\x0c', '\x0c')]),
      .eol], false),
    (RE.cat [.bol, RE.oneOf [RE.litS "ACKNOWLEDGEMENT", RE.litS "ABSTRACT",
      RE.litS "INTRODUCTION", RE.litS "CONCLUSION", RE.litS "REFERENCES",
      RE.litS "BIBLIOGRAPHY", RE.litS "APPENDIX", RE.litS "APPENDICES",
      RE.litS "GLOSSARY", RE.litS "INDEX", RE.litS "PREFACE", RE.litS "FOREWORD",
      RE.litS "DEDICATION", RE.litS "TABLE OF CONTENTS", RE.litS "LIST OF FIGURES",
      RE.litS "LIST OF TABLES"], .opt false (RE.litS "S"), .eol], true),
    (RE.cat [.bol, RE.litS "EXECUTIVE", sp1, RE.litS "SUMMARY", .eol], true),
    (RE.cat [.bol, RE.litS "LITERATURE", sp1, RE.litS "REVIEW", .eol], true),
    (RE.cat [.bol, RE.litS "RESEARCH", sp1, RE.litS "METHODOLOGY", .eol], true),
    (RE.cat [.bol, RE.litS "DATA", sp1, RE.litS "ANALYSIS", .eol], true),
    (RE.cat [.bol, RE.litS "FINDINGS", sp1, RE.litS "AND", sp1, RE.litS "DISCUSSION",
      .eol], true),
    (RE.cat [.bol, RE.litS "RECOMMENDATIONS", .eol], true) ]

/-- `heading_2` patterns (source lines 2723-2730); pattern 5 carries
`re.IGNORECASE`. -/
def HEADING2_PATTERNS : List (RE × Bool) :=
  [ (RE.cat [.bol, AZ, RE.plus az, RE.between 1 6 (.seq sp1 (.seq AZ (RE.plus az))),
      .eol], false),
    (RE.cat [.bol, d1, dotL, d1, sp1, AZ, RE.between 3 80 .dot, .eol], false),
    (RE.cat [.bol, AZ, RE.plus az, sp1, RE.litS "and", sp1, AZ, RE.plus az, .eol], false),
    (RE.cat [.bol, AZ, RE.plus az, sp1, RE.litS "of", sp1, AZ, RE.plus az,
      .star false .dot, .eol], false),
    (RE.cat [.bol, RE.litS "Section", sp1, d1, .cls false [(':', ':'), (' ', ' '),
      ('\t', '\t'), ('\n', '\n'), ('\r', '\r'), ('\x0b', '\x0b'), ('\x0c', '\x0c')],
      .star false .dot, .eol], true),
    (RE.cat [.bol, d1, sp1, AZ, RE.plus az,
      .star false (.seq sp1 (.seq (.opt false AZ) (RE.plus az))), .eol], false) ]

/-- `heading_3` patterns (source lines 2733-2740); pattern 5 carries
`re.IGNORECASE`. -/
def HEADING3_PATTERNS : List (RE × Bool) :=
  [ (RE.cat [.bol, d1, dotL, d1, dotL, d1, sp1, RE.plus .dot, .eol], false),
    (RE.cat [.bol, az, .lit [')'], sp1, RE.plus .dot, .eol], false),
    (RE.cat [.bol, .lit ['('], az, .lit [')'], sp1, RE.plus .dot, .eol], false),
    (RE.cat [.bol, AZ, RE.plus az, .lit [':'], sp0, .eol], false),
    (RE.cat [.bol, RE.plus (.cls false [('i', 'i'), ('v', 'v'), ('x', 'x')]), dotL,
      sp1, RE.plus .dot, .eol], true),
    (RE.cat [.bol, .lit ['('], d1, .lit [')'], sp1, RE.plus .dot, .eol], false) ]

/-- The `\s` ranges, for classes that mix whitespace with other atoms. -/
def wsR : List (Char × Char) :=
  [(' ', ' '), ('\t', '\t'), ('\n', '\n'), ('\r', '\r'), ('\x0b', '\x0b'), ('\x0c', '\x0c')]

/-- `[:\s]`. -/
def colonWs : RE := .cls false ((':', ':') :: wsR)

/-- `[^*]`. -/
def nonStar : RE := .cls true [('*', '*')]

/-- `[\d\.]`. -/
def digDot : RE := .cls false [('0', '9'), ('.', '.')]

/-- `\S`. -/
def nonWs : RE := .cls true wsR

/-- `reference` patterns (source lines 2743-2757); only the legal-document
pattern carries `re.IGNORECASE`. -/
def REFERENCE_PATTERNS : List (RE × Bool) :=
  [ (RE.cat [.bol, AZ, RE.plus az, .opt false (.lit [',']), sp1, AZ, dotL,
      .star false .dot, .lit ['('], RE.rep 4 digCls, .lit [')']], false),
    (RE.cat [.bol, AZ, RE.plus az, .lit [','], sp1, AZ, dotL, sp1, .opt false AZ,
      .opt false dotL, sp0, .lit ['('], RE.rep 4 digCls, .lit [')']], false),
    (RE.cat [.bol, AZ, RE.plus az, sp1, RE.litS "et", sp1, RE.litS "al", dotL,
      .star false .dot, RE.rep 4 digCls], false),
    (RE.cat [.bol, .lit ['['], d1, .lit [']']], false),
    (RE.cat [.bol, AZ, RE.plus az, .star false .dot, RE.litS "Retrieved from"], false),
    (RE.cat [.bol, AZ, RE.plus az, .star false .dot, RE.litS "http",
      .opt false (.lit ['s']), RE.litS "://"], false),
    (RE.cat [.bol, AZ, RE.plus az, .lit [','], sp1, AZ, dotL, sp1, .lit ['('],
      RE.rep 4 digCls, .lit [')'], dotL], false),
    (RE.cat [.bol, AZ, RE.plus az, .lit [','], sp1, AZ, RE.plus az, dotL, sp1,
      .lit ['"'], RE.plus .dot, .lit ['"'], sp1, RE.plus .dot, RE.rep 4 digCls], false),
    (RE.cat [.bol, d1, dotL, sp1, AZ, RE.plus az, .opt false (.lit [',']), sp1, AZ], false),
    (RE.cat [.bol, AZ, RE.plus az, .opt false (.lit [',']), sp1, AZ, dotL, sp0,
      .alt (.lit ['&']) (RE.litS "and"), sp1, AZ, RE.plus az], false),
    (RE.cat [.bol, RE.plus (.cls false ([('a', 'z'), ('A', 'Z'), ('0', '9'), ('_', '_'),
      ('.', '.'), ('-', '-'), ('&', '&')] ++ wsR)), sp0, .lit ['('], RE.rep 4 digCls,
      .opt false (.seq (.lit ['/']) (RE.rep 4 digCls)), .lit [')'], .star false .dot,
      .eol], false),
    (RE.cat [.bol, RE.oneOf [RE.litS "Decree", RE.litS "Law", RE.litS "Order",
      RE.litS "Decision", RE.litS "Arrete"], sp1, RE.litS "No", .opt false dotL,
      .star false .dot, .eol], true) ]

/-- One bullet-list pattern `^\s*[cs]\s+(.+)$`. -/
def bulletRE (cs : List Char) : RE :=
  RE.cat [.bol, sp0, clsOf cs, sp1, RE.plus .dot, .eol]

/-- `bullet_list` patterns (source lines 2760-2776). -/
def BULLET_PATTERNS : List (RE × Bool) :=
  [ (bulletRE ['•', '○', '●', '▪', '■'], false),
    (bulletRE ['-', '–', '—'], false),
    (bulletRE ['→', '➔', '➜', '➤', '➢'], false),
    (bulletRE ['*', '⁎', '⁑', '※'], false),
    (bulletRE ['☐', '☑', '✓', '✔'], false),
    (bulletRE ['⓿', '①', '②', '③', '④', '⑤', '⑥', '⑦', '⑧', '⑨',
      '❶', '❷', '❸', '❹', '❺', '❻', '❼', '❽', '❾', '❿'], false),
    (bulletRE ['✦', '✧', '★', '☆', '♥', '♡', '◆', '◇', '◉', '◎',
      '▸', '▹', '►', '◂', '◃', '◄'], false) ]

/-- `numbered_list` patterns (source lines 2779-2785); the Roman-numeral
pattern carries `re.IGNORECASE`. -/
def NUMBERED_PATTERNS : List (RE × Bool) :=
  [ (RE.cat [.bol, d1, clsOf ['.', ')'], sp1, RE.plus .dot, .eol], false),
    (RE.cat [.bol, az, clsOf ['.', ')'], sp1, RE.plus .dot, .eol], false),
    (RE.cat [.bol, RE.plus (clsOf ['i', 'v', 'x', 'l', 'c', 'd', 'm']),
      clsOf ['.', ')'], sp1, RE.plus .dot, .eol], true),
    (RE.cat [.bol, .lit ['('], d1, .lit [')'], sp1, RE.plus .dot, .eol], false),
    (RE.cat [.bol, .lit ['('], az, .lit [')'], sp1, RE.plus .dot, .eol], false),
    (RE.cat [.bol, AZ, clsOf ['.', ')'], sp1, RE.plus .dot, .eol], false),
    (RE.cat [.bol, d1, .lit [')'], sp1, RE.plus .dot, .eol], false) ]

/-- The alternatives of the giant `definition` pattern (source line 2809):
`^(Definition|Objective|...|Opportunity|Challenge):\s*(.+)?$` with
`re.IGNORECASE`, one literal keyword per alternative. -/
def DEFINITION_KEYWORDS : List String :=
  [ "Definition", "Objective", "Task", "Goal", "Purpose", "Aim", "Method", "Result",
    "Conclusion", "Note", "Important", "Key Point", "Summary", "Overview", "Background",
    "Context", "Example", "Theorem", "Lemma", "Corollary", "Proposition", "Proof", "Remark",
    "Observation", "Hypothesis", "Assumption", "Constraint", "Limitation", "Scope",
    "Significance", "Implication", "Application", "Contribution", "Finding", "Evidence", "Data",
    "Analysis", "Interpretation", "Explanation", "Description", "Specification", "Requirement",
    "Criteria", "Criterion", "Parameter", "Variable", "Constant", "Factor", "Element",
    "Component", "Aspect", "Feature", "Property", "Characteristic", "Attribute", "Quality",
    "Measure", "Metric", "Indicator", "Index", "Ratio", "Rate", "Percentage", "Value", "Score",
    "Level", "Degree", "Extent", "Amount", "Quantity", "Size", "Scale", "Range", "Interval",
    "Duration", "Period", "Phase", "Stage", "Step", "Process", "Procedure", "Protocol",
    "Algorithm", "Formula", "Equation", "Model", "Framework", "Theory", "Concept", "Principle",
    "Law", "Rule", "Guideline", "Standard", "Norm", "Benchmark", "Baseline", "Reference",
    "Source", "Origin", "Cause", "Effect", "Impact", "Outcome", "Consequence", "Benefit",
    "Advantage", "Disadvantage", "Risk", "Challenge", "Problem", "Issue", "Question", "Answer",
    "Solution", "Strategy", "Approach", "Technique", "Tool", "Instrument", "Device", "System",
    "Structure", "Organization", "Classification", "Category", "Type", "Kind", "Class", "Group",
    "Set", "Collection", "Series", "Sequence", "Order", "Pattern", "Trend", "Distribution",
    "Correlation", "Relationship", "Connection", "Link", "Association", "Comparison", "Contrast",
    "Difference", "Similarity", "Analogy", "Metaphor", "Symbol", "Sign", "Signal", "Indicator",
    "Warning", "Caution", "Attention", "Focus", "Priority", "Emphasis", "Highlight", "Point",
    "Argument", "Claim", "Assertion", "Statement", "Proposition", "Premise", "Inference",
    "Deduction", "Induction", "Generalization", "Specialization", "Abstraction", "Instantiation",
    "Implementation", "Execution", "Operation", "Function", "Action", "Activity", "Task", "Job",
    "Work", "Effort", "Attempt", "Trial", "Experiment", "Test", "Evaluation", "Assessment",
    "Review", "Examination", "Inspection", "Investigation", "Inquiry", "Study", "Research",
    "Survey", "Poll", "Interview", "Questionnaire", "Form", "Document", "Report", "Paper",
    "Article", "Book", "Chapter", "Section", "Paragraph", "Sentence", "Word", "Term", "Phrase",
    "Expression", "Language", "Text", "Content", "Information", "Data", "Knowledge", "Wisdom",
    "Intelligence", "Understanding", "Comprehension", "Interpretation", "Meaning",
    "Significance", "Importance", "Relevance", "Value", "Worth", "Merit", "Quality", "Standard",
    "Excellence", "Performance", "Efficiency", "Effectiveness", "Productivity", "Output",
    "Input", "Resource", "Asset", "Capital", "Investment", "Cost", "Expense", "Price", "Fee",
    "Charge", "Payment", "Revenue", "Income", "Profit", "Loss", "Balance", "Budget", "Forecast",
    "Projection", "Estimate", "Calculation", "Computation", "Measurement", "Quantification",
    "Qualification", "Certification", "Accreditation", "Validation", "Verification",
    "Confirmation", "Approval", "Authorization", "Permission", "License", "Right", "Privilege",
    "Responsibility", "Duty", "Obligation", "Commitment", "Promise", "Guarantee", "Warranty",
    "Assurance", "Insurance", "Protection", "Security", "Safety", "Risk", "Hazard", "Danger",
    "Threat", "Vulnerability", "Weakness", "Strength", "Opportunity", "Challenge" ]

/-- One alternative of the `definition` pattern: `^kw:\s*(.+)?$`.  The
ordered alternation of the source pattern matches exactly when some
alternative matches, since every alternative is a plain literal. -/
def defnRE (kw : String) : RE :=
  RE.cat [.bol, RE.litS kw, .lit [':'], sp0, .opt false (RE.plus .dot), .eol]

/-- The `definition` stage condition: the giant alternation matches
(`re.match`, `re.IGNORECASE`). -/
def definitionMatches (t : List Char) : Bool :=
  DEFINITION_KEYWORDS.any fun kw => reMatchB true false (defnRE kw) t

/-- `figure` patterns (source lines 2813-2821), all `re.IGNORECASE`. -/
def FIGURE_PATTERNS : List (RE × Bool) :=
  [ (RE.cat [.bol, RE.litS "Figure", sp1, d1], true),
    (RE.cat [.bol, RE.litS "Fig", dotL, sp0, d1], true),
    (RE.cat [.bol, RE.litS "Image", sp1, d1], true),
    (RE.cat [.bol, RE.litS "Diagram", sp1, d1], true),
    (RE.cat [.bol, RE.litS "Chart", sp1, d1], true),
    (RE.cat [.bol, RE.litS "Graph", sp1, d1], true),
    (RE.cat [.bol, RE.litS "Illustration", sp1, d1], true) ]

/-- `equation` patterns (source lines 2824-2828). -/
def EQUATION_PATTERNS : List (RE × Bool) :=
  [ (RE.cat [.bol, RE.litS "Equation", sp1, d1], true),
    (RE.cat [.bol, RE.litS "Eq", dotL, sp0, d1], true),
    (RE.cat [.bol, .lit ['('], d1, .lit [')'], .eol], false) ]

/-- `quote` patterns (source lines 2831-2834); the first class `["\"]`
holds only the straight double quote. -/
def QUOTE_PATTERNS : List (RE × Bool) :=
  [ (RE.cat [.bol, clsOf ['"'], .star false .dot, clsOf ['"'], .eol], false),
    (RE.cat [.bol, .lit ['>'], sp1, RE.plus .dot, .eol], false) ]

/-- `code` patterns (source lines 2837-2841). -/
def CODE_PATTERNS : List (RE × Bool) :=
  [ (RE.cat [.bol, RE.litS "```"], false),
    (RE.cat [.bol, RE.litS "~~~"], false),
    (RE.cat [.bol, RE.atLeast 2 (.lit ['\t']), RE.plus .dot, .eol], false) ]

/-- `page_metadata` patterns (source lines 2864-2869); the last is
case-sensitive. -/
def PAGE_METADATA_PATTERNS : List (RE × Bool) :=
  [ (RE.cat [.bol, sp0, RE.oneOf [RE.litS "page", RE.litS "p", RE.litS "pg"],
      .opt false dotL, sp0, d1, sp0,
      .opt false (RE.cat [RE.litS "of", sp0, d1]), sp0, .eol], true),
    (RE.cat [.bol, sp0, RE.oneOf [RE.litS "header", RE.litS "footer",
      RE.litS "running head"], .opt false (.lit [':']), sp0,
      RE.between 1 50 .dot, .eol], true),
    (RE.cat [.bol, sp0, RE.oneOf [RE.litS "confidential", RE.litS "draft",
      RE.cat [RE.litS "version", sp0, d1], RE.litS "date:", .lit ['©'],
      RE.litS "copyright"], .bnd, .star false .dot, .eol], true),
    (RE.cat [.bol, sp0, .lit ['-'], sp0, d1, sp0, .lit ['-'], sp0, .eol], false) ]

/-- `[A-Z][a-z]+` (one capitalized name part). -/
def nmRE : RE := .seq AZ (RE.plus az)

/-- An author name of the `academic_metadata` by-line:
`[A-Z][a-z]+(?:\s+[A-Z]\.)*(?:\s+[A-Z][a-z]+)*`. -/
def personRE : RE :=
  RE.cat [nmRE, .star false (RE.cat [sp1, AZ, dotL]),
    .star false (.seq sp1 nmRE)]

/-- `academic_metadata` patterns (source lines 2872-2877), all
`re.IGNORECASE`. -/
def ACADEMIC_METADATA_PATTERNS : List (RE × Bool) :=
  [ (RE.cat [.bol, sp0, RE.oneOf [RE.litS "by",
      RE.cat [RE.litS "author", .opt false (.lit ['s']), .lit [':']]], sp1,
      personRE, .star false (RE.cat [sp0, .lit [','], sp0, personRE]), .eol], true),
    (RE.cat [.bol, sp0, RE.oneOf [RE.litS "department", RE.litS "school",
      RE.litS "college", RE.litS "university", RE.litS "institute", RE.litS "faculty",
      RE.litS "center", RE.litS "laboratory"], sp1, RE.litS "of", sp1,
      RE.plus .dot, .eol], true),
    (RE.cat [.bol, sp0, RE.oneOf [RE.litS "email", RE.litS "e-mail",
      RE.cat [RE.litS "correspondence", sp1, RE.litS "to"], RE.litS "contact"],
      .opt false (.lit [':']), sp0, RE.plus nonWs, .lit ['@'], RE.plus nonWs, dotL,
      RE.plus nonWs, sp0, .eol], true),
    (RE.cat [.bol, sp0, RE.oneOf [RE.cat [RE.litS "submitted", sp1, RE.litS "to"],
      RE.cat [RE.litS "prepared", sp1, RE.litS "for"],
      RE.cat [RE.litS "in", sp1, RE.litS "partial", sp1, RE.litS "fulfillment"]],
      sp1, RE.plus .dot, .eol], true) ]

/-- `math_expression` patterns (source lines 2880-2886). -/
def MATH_EXPRESSION_PATTERNS : List (RE × Bool) :=
  [ (RE.cat [.bol, RE.litS "$$", RE.plus (.cls true [('$', '$')]), RE.litS "$$",
      .eol], false),
    (RE.cat [.lit ['$'], RE.plus (.cls true [('$', '$'), ('\n', '\n')]),
      .lit ['$']], false),
    (RE.cat [.bol, .lit ['\\'], .lit ['['], .star false .dot, .lit ['\\'],
      .lit [']'], .eol], false),
    (RE.cat [RE.litS "\\(", .star false .dot, RE.litS "\\)"], false),
    (RE.cat [.bol, sp0, AZaz, sp0, clsOf ['=', '<', '>', '≤', '≥', '≠', '≈'], sp0,
      RE.plus .dot, .eol], false) ]

/-- `^\$\d+` (the currency guard of priority 12). -/
def CURRENCY_START : RE := RE.cat [.bol, .lit ['$'], d1]

/-- `\$[^$]+\$` (the second currency check). -/
def CURRENCY_CONFIRM : RE :=
  RE.cat [.lit ['$'], RE.plus (.cls true [('$', '$')]), .lit ['$']]

/-- `footnote_endnote` patterns (source lines 2889-2894); the section
header carries `re.IGNORECASE`. -/
def FOOTNOTE_ENDNOTE_PATTERNS : List (RE × Bool) :=
  [ (RE.cat [.bol, sp0, RE.oneOf [.seq (RE.litS "endnote") (.opt false (.lit ['s'])),
      .seq (RE.litS "footnote") (.opt false (.lit ['s']))], sp0, .eol], true),
    (RE.cat [.bol, sp0, RE.oneOf [RE.between 1 3 digCls, az,
      RE.between 1 3 (.lit ['*'])], sp0, clsOf ['.', ')'], sp1,
      RE.atLeast 10 .dot, .eol], false),
    (RE.cat [.bol, sp0, .lit ['['], d1, .lit [']'], sp1, RE.atLeast 10 .dot,
      .eol], false),
    (RE.cat [.lit ['['], .lit ['^'], d1, .lit [']']], false) ]

/-- `^\s*(?:endnotes?|footnotes?)\s*$` (the subtype check of priority 13,
and the first footnote pattern's shape). -/
def FOOTNOTE_SECTION_RE : RE :=
  RE.cat [.bol, sp0, RE.oneOf [.seq (RE.litS "endnote") (.opt false (.lit ['s'])),
    .seq (RE.litS "footnote") (.opt false (.lit ['s']))], sp0, .eol]

/-- `^[\*\-•]\s` (the bullet guard of priority 14). -/
def BULLET_GUARD : RE := RE.cat [.bol, clsOf ['*', '-', '•'], wsCls]

/-- `inline_formatting` patterns (source lines 2851-2855): bold-italic,
bold, italic (the italic one uses lookarounds to avoid bold). -/
def INLINE_FORMATTING_PATTERNS : List (RE × Bool) :=
  [ (.alt (RE.cat [RE.litS "***", RE.plusLazy .dot, RE.litS "***"])
      (RE.cat [RE.litS "___", RE.plusLazy .dot, RE.litS "___"]), false),
    (.alt (RE.cat [RE.litS "**", RE.plusLazy .dot, RE.litS "**"])
      (RE.cat [RE.litS "__", RE.plusLazy .dot, RE.litS "__"]), false),
    (.alt (RE.cat [.nlb1 [('*', '*')], .lit ['*'],
        RE.plusLazy (.cls true [('*', '*'), ('\n', '\n')]), .lit ['*'],
        .nla (.lit ['*'])])
      (RE.cat [.nlb1 [('_', '_')], .lit ['_'],
        RE.plusLazy (.cls true [('_', '_'), ('\n', '\n')]), .lit ['_'],
        .nla (.lit ['_'])]), false) ]

/-- `heading_hierarchy` patterns (source lines 2902-2909); patterns 1 and 5
carry `re.IGNORECASE`. -/
def HEADING_HIERARCHY_PATTERNS : List (RE × Bool) :=
  [ (RE.cat [.bol, .lit ['#'], sp1, RE.litS "CHAPTER", sp1, RE.plus wordCls,
      colonWs], true),
    (RE.cat [.bol, RE.litS "##", sp1, d1, dotL, d1, sp1], false),
    (RE.cat [.bol, RE.litS "###", sp1, d1, dotL, d1, dotL, d1, sp1], false),
    (RE.cat [.bol, RE.litS "####", sp1, d1, dotL, d1, dotL, d1, dotL, d1, sp1], false),
    (RE.cat [.bol, RE.litS "#####", sp1, az, .lit [')'], sp1], true),
    (RE.cat [.bol, RE.between 1 6 (.lit ['#']), sp1], false) ]

/-- `[-\s:]`. -/
def sepCls : RE := .cls false (('-', '-') :: (':', ':') :: wsR)

/-- `[^|]`. -/
def nonPipe : RE := .cls true [('|', '|')]

/-- `academic_table` patterns (source lines 2912-2917); the caption
pattern carries `re.IGNORECASE`. -/
def ACADEMIC_TABLE_PATTERNS : List (RE × Bool) :=
  [ (RE.cat [.bol, .lit ['|'], RE.plus sepCls, .lit ['|'], RE.plus sepCls,
      .lit ['|']], false),
    (RE.cat [.bol, .lit ['|'], sp0, RE.litS "**", RE.plus nonPipe, RE.litS "**",
      sp0, .lit ['|']], false),
    (RE.cat [.bol, .lit ['|'], RE.plus nonPipe, .lit ['|'], RE.plus nonPipe,
      .lit ['|'], RE.plus nonPipe, .lit ['|']], false),
    (RE.cat [.bol, RE.litS "Table", sp1, d1, dotL, d1, colonWs], true) ]

/-- `list_nested` patterns (source lines 2920-2926). -/
def LIST_NESTED_PATTERNS : List (RE × Bool) :=
  [ (RE.cat [.bol, RE.atLeast 2 wsCls, clsOf ['•', '-', '*'], sp1], false),
    (RE.cat [.bol, RE.atLeast 2 wsCls, d1, clsOf ['.', ')'], sp1], false),
    (RE.cat [.bol, RE.atLeast 2 wsCls, az, clsOf ['.', ')'], sp1], false),
    (RE.cat [.bol, sp0, .lit ['□'], sp1], false),
    (RE.cat [.bol, sp0, clsOf ['☐', '☑', '✓', '✗'], sp1], false) ]

/-- `figure_equation` patterns (source lines 2929-2935); the LaTeX
environment braces are literal. -/
def FIGURE_EQUATION_PATTERNS : List (RE × Bool) :=
  [ (RE.cat [.bol, clsOf ['F', 'f'], RE.litS "igure", sp1, d1, dotL, d1,
      colonWs], false),
    (RE.cat [.bol, RE.litS "**Figure", sp1, d1], false),
    (RE.cat [.bol, RE.litS "$$", sp0, .eol], false),
    (RE.litS "\\begin\x7bequation\x7d", false),
    (RE.litS "\\end\x7bequation\x7d", false) ]

/-- `citation_inline` patterns (source lines 2938-2944), all searched. -/
def CITATION_INLINE_PATTERNS : List (RE × Bool) :=
  [ (RE.cat [.lit ['('], nmRE, .lit [','], sp0, RE.rep 4 digCls, .lit [')']], false),
    (RE.cat [.lit ['('], nmRE, sp0, .lit ['&'], sp0, nmRE, .lit [','], sp0,
      RE.rep 4 digCls, .lit [')']], false),
    (RE.cat [.lit ['('], nmRE, sp1, RE.litS "et", sp1, RE.litS "al", dotL,
      .lit [','], sp0, RE.rep 4 digCls, .lit [')']], false),
    (RE.cat [.lit ['('], nmRE, .lit [','], sp0, RE.rep 4 digCls, .lit [';'], sp0,
      nmRE, .lit [','], sp0, RE.rep 4 digCls, .lit [')']], false),
    (RE.cat [.lit ['('], nmRE, sp1, RE.litS "and", sp1, nmRE, .lit [','], sp0,
      RE.rep 4 digCls, .lit [')']], false) ]

/-- `running_header` patterns (source lines 2947-2951); patterns 2-3 carry
`re.IGNORECASE`. -/
def RUNNING_HEADER_PATTERNS : List (RE × Bool) :=
  [ (RE.cat [.bol, AZ, RE.plus (.cls false (('A', 'Z') :: wsR)), sp0, .lit ['|'],
      sp0, AZ], false),
    (RE.cat [.bol, sp0, RE.litS "Page", sp1, d1, sp1, RE.litS "of", sp1, d1, sp0,
      .eol], true),
    (RE.cat [.bol, RE.litS "Chapter", sp1, d1, sp0, .lit ['|'], sp0], true) ]

/-- `appendix_format` patterns (source lines 2954-2959); patterns 1 and 4
carry `re.IGNORECASE`. -/
def APPENDIX_FORMAT_PATTERNS : List (RE × Bool) :=
  [ (RE.cat [.bol, RE.litS "APPENDIX", sp1, AZ, .eol], true),
    (RE.cat [.bol, AZ, dotL, d1, colonWs], false),
    (RE.cat [.bol, AZ, dotL, d1, dotL, d1, colonWs], false),
    (RE.cat [.bol, RE.litS "Appendix", sp1, AZ, colonWs], true) ]

/-- `^APPENDIX\s+[A-Z]$` (priority 20 level check, `re.IGNORECASE`). -/
def APPENDIX_HEADER_RE : RE := RE.cat [.bol, RE.litS "APPENDIX", sp1, AZ, .eol]

/-- `^[A-Z]\.\d+\.\d+` (priority 20 subsection check). -/
def APPENDIX_SUBSEC_RE : RE := RE.cat [.bol, AZ, dotL, d1, dotL, d1]

/-- `^[A-Z]\.\d+` (priority 20 section check). -/
def APPENDIX_SEC_RE : RE := RE.cat [.bol, AZ, dotL, d1]

/-- `block_quote` patterns (source lines 2960-2965). -/
def BLOCK_QUOTE_PATTERNS : List (RE × Bool) :=
  [ (RE.cat [.bol, .lit ['>'], sp1, RE.plus .dot, .eol], false),
    (RE.cat [.bol, RE.atLeast 4 wsCls, .lit ['"'], RE.plus .dot, .eol], false),
    (RE.cat [.bol, .lit ['"'], RE.atLeast 50 (.cls true [('"', '"')])], false),
    (RE.cat [.bol, .lit [Char.ofNat 39],
      RE.atLeast 50 (.cls true [(Char.ofNat 39, Char.ofNat 39)])], false) ]

/-- `math_model` patterns (source lines 2968-2975), all searched. -/
def MATH_MODEL_PATTERNS : List (RE × Bool) :=
  [ (RE.cat [clsOf ['Y', 'y'], sp0, .lit ['='], sp0, clsOf ['β', 'α']], false),
    (RE.cat [RE.litS "\\beta_", digCls], false),
    (RE.cat [clsOf ['R', 'r'], .lit ['²'], sp0, .lit ['='], sp0, digDot], false),
    (RE.cat [clsOf ['F', 'f'], sp0, .lit ['('], sp0, d1, sp0, .lit [','], sp0,
      d1, sp0, .lit [')']], false),
    (RE.cat [clsOf ['P', 'p'], sp0, clsOf ['<', '>', '='], sp0,
      RE.plus digDot], false),
    (RE.oneOf [RE.litS "\\epsilon", RE.litS "\\sigma", RE.litS "\\mu"], false) ]

/-- `text_emphasis` patterns (source lines 2978-2983), all searched; the
third is the backquoted-monospace pattern. -/
def TEXT_EMPHASIS_PATTERNS : List (RE × Bool) :=
  [ (RE.cat [RE.litS "**", AZ, RE.plus nonStar, RE.litS "**", .lit [':']], false),
    (RE.cat [.lit ['*'], AZaz, RE.plus nonStar, .lit ['*']], false),
    (RE.cat [.lit [Char.ofNat 96],
      RE.plus (.cls true [(Char.ofNat 96, Char.ofNat 96)]), .lit [Char.ofNat 96]], false),
    (RE.cat [RE.litS "***", RE.plus .dot, RE.litS "***"], false) ]

/-- `reference_apa` patterns (source lines 2986-2992), all searched. -/
def REFERENCE_APA_PATTERNS : List (RE × Bool) :=
  [ (RE.cat [.bol, nmRE, .lit [','], sp0, AZ, dotL, sp0, .opt false AZ, dotL, sp0,
      .lit ['('], RE.rep 4 digCls, .lit [')']], false),
    (RE.cat [.lit ['*'], RE.plus nonStar, .lit ['*'], dotL], false),
    (RE.cat [RE.litS "http", .opt false (.lit ['s']), RE.litS "://doi", dotL,
      RE.litS "org/"], false),
    (RE.cat [RE.litS "doi:", sp0, RE.plus digDot, .lit ['/']], false),
    (RE.cat [RE.litS "Retrieved", sp1, RE.plus wordCls, sp1, d1, .lit [','], sp0,
      RE.rep 4 digCls], false) ]

/-- `footnote_marker` patterns (source lines 3004-3009), all searched. -/
def FOOTNOTE_MARKER_PATTERNS : List (RE × Bool) :=
  [ (RE.cat [.lit ['['], .lit ['^'], d1, .lit [']']], false),
    (RE.cat [.lit ['^'], d1], false),
    (RE.cat [.lit ['('], d1, .lit [')'], .eol], false),
    (RE.cat [.bol, .lit ['['], .lit ['^'], d1, .lit [']'], .lit [':']], false) ]

/-- `abbreviation` patterns (source lines 3012-3017), all searched. -/
def ABBREVIATION_PATTERNS : List (RE × Bool) :=
  [ (RE.cat [nmRE, RE.plus (.seq sp1 nmRE), sp1, .lit ['('], RE.atLeast 2 AZ,
      .lit [')']], false),
    (RE.cat [.lit ['('], RE.atLeast 2 AZ, .lit [')']], false),
    (RE.cat [.bol, RE.atLeast 2 AZ, .lit [':'], wsCls], false),
    (RE.cat [.bnd, RE.atLeast 2 AZ, .opt false (.lit ['s']), .bnd], false) ]

/-- `[A-Z][a-z]+(?:\s+[A-Z][a-z]+)+\s+\([A-Z]{2,}\)` (the confirmation
search of priority 27). -/
def ABBREVIATION_CONFIRM : RE :=
  RE.cat [nmRE, RE.plus (.seq sp1 nmRE), sp1, .lit ['('], RE.atLeast 2 AZ, .lit [')']]

/-- `caption_format` patterns (source lines 3020-3027); only the note
pattern carries `re.IGNORECASE`. -/
def CAPTION_FORMAT_PATTERNS : List (RE × Bool) :=
  [ (RE.cat [.bol, RE.litS "**Table", sp1, d1], false),
    (RE.cat [.bol, RE.litS "**Figure", sp1, d1], false),
    (RE.cat [.bol, RE.litS "Table", sp1, d1, dotL, d1, .lit [':']], false),
    (RE.cat [.bol, RE.litS "Figure", sp1, d1, dotL, d1, .lit [':']], false),
    (RE.cat [.bol, RE.litS "Source:", wsCls], false),
    (RE.cat [.bol, RE.litS "Note:", wsCls], true) ]

/-- `page_break` patterns (source lines 3030-3037); patterns 4-6 carry
`re.IGNORECASE`. -/
def PAGE_BREAK_PATTERNS : List (RE × Bool) :=
  [ (RE.cat [.bol, RE.atLeast 3 (.lit ['-']), .eol], false),
    (RE.cat [.bol, RE.atLeast 3 (.lit ['*']), .eol], false),
    (RE.cat [.bol, RE.atLeast 3 (.lit ['_']), .eol], false),
    (RE.cat [.bol, .lit ['['], RE.litS "PAGE", sp0, RE.litS "BREAK", .lit [']']], true),
    (RE.cat [.bol, RE.litS "\\newpage"], true),
    (RE.cat [.bol, RE.litS "\\pagebreak"], true) ]

/-- `statistical_result` patterns (source lines 3040-3050), all searched. -/
def STATISTICAL_RESULT_PATTERNS : List (RE × Bool) :=
  [ (RE.cat [.lit ['β'], sp0, .lit ['='], sp0,
      RE.plus (.cls false [('-', '-'), ('0', '9'), ('.', '.')])], false),
    (RE.cat [clsOf ['P', 'p'], sp0, clsOf ['<', '>', '='], sp0, .opt false dotL,
      d1], false),
    (RE.cat [clsOf ['F', 'f'], sp0, .lit ['('], d1, .lit [','], sp0, d1,
      .lit [')'], sp0, .lit ['=']], false),
    (RE.cat [clsOf ['T', 't'], sp0, .lit ['('], d1, .lit [')'], sp0, .lit ['=']], false),
    (RE.cat [RE.litS "χ²", sp0, .lit ['('], d1, .lit [')'], sp0, .lit ['=']], false),
    (RE.cat [clsOf ['R', 'r'], .opt false (.lit ['²']), sp0, .lit ['='], sp0,
      .opt false dotL, d1], false),
    (RE.cat [clsOf ['N', 'n'], sp0, .lit ['='], sp0, d1], false),
    (RE.cat [clsOf ['M', 'm'], sp0, .lit ['='], sp0, RE.plus digDot, .lit [','],
      sp0, clsOf ['S', 's'], clsOf ['D', 'd'], sp0, .lit ['=']], false),
    (RE.cat [RE.litS "CI", sp0, .opt false (.lit ['=']), sp0, .lit ['['],
      RE.plus (.cls false (('0', '9') :: ('.', '.') :: ('-', '-') :: (',', ',') :: wsR)),
      .lit [']']], false) ]

/-- `questionnaire` patterns (source lines 3053-3059); the section header
carries `re.IGNORECASE`. -/
def QUESTIONNAIRE_PATTERNS : List (RE × Bool) :=
  [ (RE.cat [.bol, RE.litS "Section", sp1, AZ, colonWs], true),
    (RE.cat [.bol, d1, dotL, sp1, RE.litS "**", RE.plus nonStar, RE.litS "**"], false),
    (RE.cat [clsOf ['□', '☐', '☑', '✓', '✗', '○', '●'], sp1, AZaz], false),
    (RE.cat [.lit ['|'], sp0, RE.litS "SA", sp0, .lit ['|'], sp0, .lit ['A'], sp0,
      .lit ['|'], sp0, .lit ['N'], sp0, .lit ['|'], sp0, .lit ['D'], sp0,
      .lit ['|'], sp0, RE.litS "SD", sp0, .lit ['|']], false),
    (RE.cat [.bol, sp0, .lit ['□'], sp1, AZaz], false) ]

/-- `glossary_entry` patterns (source lines 3062-3066). -/
def GLOSSARY_ENTRY_PATTERNS : List (RE × Bool) :=
  [ (RE.cat [.bol, RE.litS "**", AZ, RE.plus nonStar, RE.litS "**", .lit [':'],
      wsCls], false),
    (RE.cat [.bol, nmRE, .star false (.seq sp1 nmRE), .lit [':'], sp1, AZ], false),
    (RE.cat [.bol, .lit ['•'], sp1, RE.litS "**", RE.plus nonStar, RE.litS "**"], false) ]

/-- `cross_reference` patterns (source lines 3069-3077), all searched. -/
def CROSS_REFERENCE_PATTERNS : List (RE × Bool) :=
  [ (RE.cat [clsOf ['S', 's'], RE.litS "ee", sp1, clsOf ['T', 't'], RE.litS "able",
      sp1, d1], false),
    (RE.cat [clsOf ['S', 's'], RE.litS "ee", sp1, clsOf ['F', 'f'], RE.litS "igure",
      sp1, d1], false),
    (RE.cat [clsOf ['S', 's'], RE.litS "ee", sp1, clsOf ['S', 's'], RE.litS "ection",
      sp1, d1], false),
    (RE.cat [clsOf ['A', 'a'], .lit ['s'], sp1, RE.litS "shown", sp1, RE.litS "in",
      sp1, clsOf ['T', 't'], RE.litS "able"], false),
    (RE.cat [clsOf ['A', 'a'], .lit ['s'], sp1, RE.litS "discussed", sp1,
      RE.litS "in", sp1, clsOf ['S', 's'], RE.litS "ection"], false),
    (RE.cat [.lit ['('], clsOf ['S', 's'], RE.litS "ee", sp1, clsOf ['P', 'p'],
      RE.litS "age", sp1, d1, .lit [')']], false),
    (RE.cat [RE.litS "(p", dotL, sp0, d1, .lit [')']], false) ]

/-- `[\:\.]?\s*`, the common tail of the key-point patterns. -/
def kpT : RE := .seq (.opt false (clsOf [':', '.'])) sp0

/-- `key_point_learning` patterns (source lines 3278-3286), all
`re.IGNORECASE`. -/
def KEY_POINT_LEARNING : List (RE × Bool) :=
  [ (RE.cat [.bol, RE.litS "Learning", sp1, RE.litS "Objective",
      .opt false (.lit ['s']), kpT], true),
    (RE.cat [.bol, RE.litS "Objective", .opt false (.lit ['s']), kpT], true),
    (RE.cat [.bol, RE.litS "Goal", .opt false (.lit ['s']), kpT], true),
    (RE.cat [.bol, RE.litS "By", sp1, RE.litS "the", sp1, RE.litS "end",
      .star false .dot, RE.litS "you", sp1, RE.litS "will", sp1, RE.litS "be", sp1,
      RE.litS "able", sp1, RE.litS "to", kpT], true),
    (RE.cat [.bol, RE.litS "Learning", sp1, RE.litS "Outcome",
      .opt false (.lit ['s']), kpT], true),
    (RE.cat [.bol, RE.litS "Outcome", sp1, d1, kpT], true),
    (RE.cat [.bol, RE.litS "Objective", sp1, d1, kpT], true) ]

/-- `key_point_definitions` patterns (source lines 3289-3294), all
`re.IGNORECASE`; the quote class holds the straight double and single
quote. -/
def KEY_POINT_DEFINITIONS : List (RE × Bool) :=
  [ (RE.cat [.bol, RE.litS "Definition", kpT], true),
    (RE.cat [.bol, AZ, RE.plus az, sp1, RE.litS "is", sp1,
      RE.oneOf [RE.cat [RE.litS "defined", sp1, RE.litS "as"],
        RE.cat [RE.litS "refers", sp1, RE.litS "to"]]], true),
    (RE.cat [.bol, RE.litS "The", sp1, RE.litS "term", sp1,
      clsOf ['"', Char.ofNat 39],
      RE.plus (.cls true [('"', '"'), (Char.ofNat 39, Char.ofNat 39)]),
      clsOf ['"', Char.ofNat 39], sp1, RE.litS "means"], true),
    (RE.cat [.bol, AZ, RE.plus az, RE.plus colonWs,
      RE.oneOf [.lit ['A'], RE.litS "An", RE.litS "The"], sp1], true) ]

/-- `key_point_concepts` patterns (source lines 3297-3305), all
`re.IGNORECASE`. -/
def KEY_POINT_CONCEPTS : List (RE × Bool) :=
  [ (RE.cat [.bol, RE.litS "Key", sp1, RE.oneOf [RE.litS "Concept",
      RE.litS "Idea", RE.litS "Point"], kpT], true),
    (RE.cat [.bol, RE.litS "Important", kpT], true),
    (RE.cat [.bol, RE.litS "Note", kpT], true),
    (RE.cat [.bol, RE.litS "Remember", kpT], true),
    (RE.cat [.bol, RE.litS "Critical", kpT], true),
    (RE.cat [.bol, RE.litS "Essential", kpT], true),
    (RE.cat [.bol, RE.litS "Key", sp1, RE.litS "Takeaway", kpT], true) ]

/-- `key_point_procedures` patterns (source lines 3308-3316), all
`re.IGNORECASE`. -/
def KEY_POINT_PROCEDURES : List (RE × Bool) :=
  [ (RE.cat [.bol, RE.litS "Step", .opt false (.lit ['s']), kpT], true),
    (RE.cat [.bol, RE.litS "Procedure", kpT], true),
    (RE.cat [.bol, RE.litS "Process", kpT], true),
    (RE.cat [.bol, RE.litS "Algorithm", kpT], true),
    (RE.cat [.bol, RE.litS "Method", kpT], true),
    (RE.cat [.bol, RE.litS "Step", sp1, d1, kpT], true),
    (RE.cat [.bol, RE.litS "Instruction", .opt false (.lit ['s']), kpT], true) ]

/-- `key_point_examples` patterns (source lines 3319-3327), all
`re.IGNORECASE`. -/
def KEY_POINT_EXAMPLES : List (RE × Bool) :=
  [ (RE.cat [.bol, RE.litS "Example", kpT], true),
    (RE.cat [.bol, RE.litS "For", sp1, RE.litS "instance", kpT], true),
    (RE.cat [.bol, RE.litS "For", sp1, RE.litS "example", kpT], true),
    (RE.cat [.bol, RE.litS "Consider", kpT], true),
    (RE.cat [.bol, RE.litS "Sample", kpT], true),
    (RE.cat [.bol, RE.litS "Example", sp1, d1, kpT], true),
    (RE.cat [.bol, RE.litS "Case", sp1, RE.litS "Study", kpT], true) ]

/-- `key_point_warnings` patterns (source lines 3330-3338), all
`re.IGNORECASE`. -/
def KEY_POINT_WARNINGS : List (RE × Bool) :=
  [ (RE.cat [.bol, RE.litS "Warning", kpT], true),
    (RE.cat [.bol, RE.litS "Caution", kpT], true),
    (RE.cat [.bol, RE.litS "Avoid", kpT], true),
    (RE.cat [.bol, RE.litS "Common", sp1, RE.oneOf [RE.litS "mistake",
      RE.litS "error"], kpT], true),
    (RE.cat [.bol, RE.litS "Do", sp1, RE.litS "not", kpT], true),
    (RE.cat [.bol, RE.litS "Never", kpT], true),
    (RE.cat [.bol, RE.litS "Pitfall", kpT], true) ]

/-- `key_point_exercises` patterns (source lines 3341-3351), all
`re.IGNORECASE`. -/
def KEY_POINT_EXERCISES : List (RE × Bool) :=
  [ (RE.cat [.bol, RE.litS "Exercise", kpT], true),
    (RE.cat [.bol, RE.litS "Question", kpT], true),
    (RE.cat [.bol, RE.litS "Problem", kpT], true),
    (RE.cat [.bol, RE.litS "Task", kpT], true),
    (RE.cat [.bol, RE.litS "Challenge", kpT], true),
    (RE.cat [.bol, RE.litS "Exercise", sp1, d1, kpT], true),
    (RE.cat [.bol, RE.litS "Question", sp1, d1, kpT], true),
    (RE.cat [.bol, RE.litS "Problem", sp1, d1, kpT], true),
    (RE.cat [.bol, RE.litS "Practice", kpT], true) ]

/-- `key_point_summary` patterns (source lines 3354-3362), all
`re.IGNORECASE`. -/
def KEY_POINT_SUMMARY : List (RE × Bool) :=
  [ (RE.cat [.bol, RE.litS "Summary", kpT], true),
    (RE.cat [.bol, RE.litS "Conclusion", kpT], true),
    (RE.cat [.bol, RE.litS "Takeaway", .opt false (.lit ['s']), kpT], true),
    (RE.cat [.bol, RE.litS "In", sp1, RE.litS "summary", kpT], true),
    (RE.cat [.bol, RE.litS "To", sp1, RE.oneOf [RE.litS "summarize",
      RE.litS "recap"], kpT], true),
    (RE.cat [.bol, RE.litS "Main", sp1, RE.oneOf [
      .seq (RE.litS "point") (.opt false (.lit ['s'])),
      .seq (RE.litS "takeaway") (.opt false (.lit ['s']))], kpT], true),
    (RE.cat [.bol, RE.litS "Key", sp1, RE.litS "Point", .opt false (.lit ['s']),
      kpT], true) ]

/-- `PatternEngine.get_key_point_type` (source lines 3827-3854) as a
Boolean: some category pattern matches the stripped text. -/
def keyPointMatches (t : List Char) : Bool :=
  anyMatch KEY_POINT_LEARNING (stripL t) ||
  anyMatch KEY_POINT_DEFINITIONS (stripL t) ||
  anyMatch KEY_POINT_CONCEPTS (stripL t) ||
  anyMatch KEY_POINT_PROCEDURES (stripL t) ||
  anyMatch KEY_POINT_EXAMPLES (stripL t) ||
  anyMatch KEY_POINT_WARNINGS (stripL t) ||
  anyMatch KEY_POINT_EXERCISES (stripL t) ||
  anyMatch KEY_POINT_SUMMARY (stripL t)

/-- `assignment_header` patterns (source lines 3365-3377), all
`re.IGNORECASE`. -/
def ASSIGNMENT_HEADER_PATTERNS : List (RE × Bool) :=
  [ (RE.cat [.bol, RE.litS "Student", .opt false (.seq sp1 (RE.litS "Name")),
      kpT], true),
    (RE.cat [.bol, RE.litS "Student", sp1, RE.litS "ID", kpT], true),
    (RE.cat [.bol, RE.litS "Name", kpT], true),
    (RE.cat [.bol, RE.litS "Course", .opt false (.seq sp1 (RE.litS "Code")),
      kpT], true),
    (RE.cat [.bol, RE.litS "Instructor", kpT], true),
    (RE.cat [.bol, RE.litS "Professor", kpT], true),
    (RE.cat [.bol, RE.litS "Due", sp1, RE.litS "Date", kpT], true),
    (RE.cat [.bol, RE.litS "Date", kpT], true),
    (RE.cat [.bol, RE.litS "Submitted", sp1, RE.oneOf [RE.litS "by",
      RE.litS "to"], kpT], true),
    (RE.cat [.bol, RE.litS "Class", kpT], true),
    (RE.cat [.bol, RE.litS "Section", kpT], true) ]

/-- `PatternEngine.is_assignment_header_field` (source lines 3856-3864). -/
def isAssignmentHeaderField (t : List Char) : Bool :=
  anyMatch ASSIGNMENT_HEADER_PATTERNS (stripL t)

/-- One `detect_bullet_type` pattern `^\s*C\s+(.+)$` for a class of bullet
characters. -/
def dbtRE (cls : RE) : RE := RE.cat [.bol, sp0, cls, sp1, RE.plus .dot, .eol]

/-- The patterns of the module-level `detect_bullet_type` (source lines
2399-2437), in dict order; the final catch-all class includes the ranges
`➀-➉` and `⁍-` (with the trailing hyphen literal). -/
def DETECT_BULLET_PATTERNS : List RE :=
  [ dbtRE (clsOf ['•']), dbtRE (clsOf ['○']), dbtRE (clsOf ['●']),
    dbtRE (clsOf ['▪']), dbtRE (clsOf ['■']),
    dbtRE (clsOf ['-', '–', '—']),
    dbtRE (clsOf ['→', '➔', '➜', '➤', '➢']),
    dbtRE (.lit ['*']),
    dbtRE (clsOf ['⁎', '⁑', '※']),
    dbtRE (clsOf ['☐']), dbtRE (clsOf ['☑']), dbtRE (clsOf ['✓', '✔']),
    dbtRE (clsOf ['⓿', '①', '②', '③', '④', '⑤', '⑥', '⑦', '⑧', '⑨']),
    dbtRE (clsOf ['❶', '❷', '❸', '❹', '❺', '❻', '❼', '❽', '❾', '❿']),
    dbtRE (clsOf ['✦', '✧']), dbtRE (clsOf ['★', '☆']),
    dbtRE (clsOf ['♥', '♡']), dbtRE (clsOf ['◆', '◇']),
    dbtRE (clsOf ['◉', '◎']), dbtRE (clsOf ['▸', '▹', '►']),
    dbtRE (clsOf ['◂', '◃', '◄']),
    dbtRE (.cls false
      ((['•', '○', '●', '▪', '■', '□', '◆', '◇', '→', '➔', '➜', '➤', '➢', '–',
        '—', '*', '⁎', '⁑', '※', '✱', '✲', '✳', '✴', '☐', '☑', '✓', '✔', '✗',
        '✘', '⓿', '①', '②', '③', '④', '⑤', '⑥', '⑦', '⑧', '⑨', '❶', '❷', '❸',
        '❹', '❺', '❻', '❼', '❽', '❾', '❿'].map fun c => (c, c)) ++
       [('➀', '➉')] ++
       (['✦', '✧', '★', '☆', '♥', '♡', '◉', '◎', '▸', '▹', '►', '◂', '◃', '◄',
        '⦿', '⁍', '-'].map fun c => (c, c)))) ]

/-- `detect_bullet_type` (source lines 2395-2451) as the Boolean the
classifier consumes: some bullet pattern matches the line. -/
def detectBulletTypeB (line : List Char) : Bool :=
  DETECT_BULLET_PATTERNS.any fun p => reMatchB false false p line

/-- `^[A-Z][a-z]+(?:\s+[A-Za-z][a-z]*)*$` (the `is_title_case`
characteristic of `analyze_line`). -/
def TITLE_CASE_RE : RE :=
  RE.cat [.bol, AZ, RE.plus az,
    .star false (RE.cat [sp1, AZaz, .star false az]), .eol]

/-- `is_all_caps` of `analyze_line`: the trimmed line equals its
uppercasing, holds a letter, and is longer than 2. -/
def isAllCaps (t : List Char) : Bool :=
  t == upperL t && t.any Char.isAlpha && decide (2 < t.length)

/-- `word_count` of `analyze_line`: `len(trimmed.split())`. -/
def wordCount (t : List Char) : Nat := (pySplit t).length

/-- `trimmed.endswith(c)` for a single character. -/
def endsWithCh (t : List Char) (c : Char) : Bool :=
  match t.getLast? with
  | some d => d = c
  | none => false

/-- `str.endswith(suffix)`. -/
def endsWithL (t suf : List Char) : Bool := startsWithL t.reverse suf.reverse

/-- `PatternEngine.is_copyright_content` (source lines 4615-4626). -/
def isCopyrightContent (t : List Char) : Bool :=
  anyMatch COPYRIGHT_PATTERNS (stripL t)

/-- `PatternEngine.is_signature_line` (source lines 4654-4665). -/
def isSignatureLine (t : List Char) : Bool :=
  anyMatch SIGNATURE_PATTERNS (stripL t)

/-- A classifier stage: given the (cleaned) line, the trimmed line and the
`prev_was_chapter` context flag, either classify and return, or pass. -/
def Stage : Type := List Char → List Char → Bool → Option Analysis

/-- A stage that fires on a Boolean condition over the trimmed line and
returns a fixed classification. -/
def stCondT (c : List Char → Bool) (ty : String) (lvl conf : Nat) : Stage :=
  fun _ t _ => if c t then some ⟨ty, lvl, conf⟩ else none

/-- Priority 1a (`table_marker`): the subtype comes from searching `START`
and `END` case-insensitively. -/
def stTableMarker : Stage := fun _ t _ =>
  if anyMatch TABLE_MARKER_PATTERNS t then
    some (if reSearch true false (RE.litS "START") t then ⟨"table_start", 0, 100⟩
      else if reSearch true false (RE.litS "END") t then ⟨"table_end", 0, 100⟩
      else ⟨"table_caption", 0, 100⟩)
  else none

/-- Priority 1b (`table_row`): separator rows are told apart by
`^\|[\s\-:]+\|`. -/
def stTableRow : Stage := fun _ t _ =>
  if anyMatch TABLE_ROW_PATTERNS t then
    some (if reMatchB false false TABLE_SEP_CHECK t then ⟨"table_separator", 0, 100⟩
      else ⟨"table_row", 0, 100⟩)
  else none

/-- Priority 1.5a: chapter headings. -/
def stChapterHeading : Stage := stCondT isChapterHeadingE "chapter_heading" 1 100

/-- Priority 1.5b: a chapter title, only when the previous line was a
chapter heading. -/
def stChapterTitle : Stage := fun _ t p =>
  if p then
    if isChapterTitleE t true then some ⟨"chapter_title", 2, 95⟩ else none
  else none

/-- Priority 1.5c: front matter section headings. -/
def stFrontMatter : Stage := stCondT isFrontMatterE "front_matter_heading" 1 100

/-- Priority 1.5d: copyright content. -/
def stCopyright : Stage := stCondT isCopyrightContent "copyright_content" 0 95

/-- Priority 1.5e: signature lines. -/
def stSignature : Stage := stCondT isSignatureLine "signature_line" 0 95

/-- Priority 1.5f: table-of-contents entries. -/
def stTocEntry1 : Stage := stCondT isTocEntryE "toc_entry" 0 90

/-- Priority 2: heading detection, gated on `is_short` (trimmed length
below 100) and no trailing period; H1/H2/H3 pattern lists, then the
ALL-CAPS and Title-Case heuristics. -/
def stHeading : Stage := fun _ t _ =>
  if decide (t.length < 100) && !(endsWithCh t '.') then
    if anyMatch HEADING1_PATTERNS t then some ⟨"heading", 1, 95⟩
    else if anyMatch HEADING2_PATTERNS t then some ⟨"heading", 2, 90⟩
    else if anyMatch HEADING3_PATTERNS t then some ⟨"heading", 3, 85⟩
    else if isAllCaps t && decide (t.length < 60) && decide (wordCount t ≤ 6) then
      some ⟨"heading", 1, 80⟩
    else if reMatchB false false TITLE_CASE_RE t && decide (t.length < 60) &&
        decide (2 ≤ wordCount t) && decide (wordCount t ≤ 8) then
      some ⟨"heading", 2, 75⟩
    else none
  else none

/-- Priority 3: references. -/
def stReference : Stage := stCondT (anyMatch REFERENCE_PATTERNS) "reference" 0 90

/-- Priority 4a: the enhanced bullet detector runs on the (cleaned) line
to preserve indentation. -/
def stBulletDetect : Stage := fun l _ _ =>
  if detectBulletTypeB l then some ⟨"bullet_list", 0, 95⟩ else none

/-- Priority 4b: `bullet_list` patterns on the trimmed line. -/
def stBulletList : Stage := stCondT (anyMatch BULLET_PATTERNS) "bullet_list" 0 95

/-- Priority 4c: `numbered_list` patterns. -/
def stNumberedList : Stage := stCondT (anyMatch NUMBERED_PATTERNS) "numbered_list" 0 95

/-- Priority 5: the definition keyword pattern. -/
def stDefinition : Stage := stCondT definitionMatches "definition" 0 90

/-- Priority 6: figure captions. -/
def stFigure : Stage := stCondT (anyMatch FIGURE_PATTERNS) "figure" 0 95

/-- Priority 7: equation labels. -/
def stEquation : Stage := stCondT (anyMatch EQUATION_PATTERNS) "equation" 0 90

/-- Priority 8: quotes. -/
def stQuote : Stage := stCondT (anyMatch QUOTE_PATTERNS) "quote" 0 85

/-- Priority 9: code blocks. -/
def stCode : Stage := stCondT (anyMatch CODE_PATTERNS) "code" 0 90

/-- Priority 10: page metadata. -/
def stPageMetadata : Stage := stCondT (anyMatch PAGE_METADATA_PATTERNS) "page_metadata" 0 90

/-- Priority 11: academic metadata. -/
def stAcademicMetadata : Stage :=
  stCondT (anyMatch ACADEMIC_METADATA_PATTERNS) "academic_metadata" 0 80

/-- Priority 12: mathematical expressions; the currency guard `^\$\d+`
without a closing `\$...\$` suppresses every pattern, and the confidence
depends on the delimiters found. -/
def stMathExpression : Stage := fun _ t _ =>
  if anySearch MATH_EXPRESSION_PATTERNS t &&
      !(reMatchB false false CURRENCY_START t &&
        !(reSearch false false CURRENCY_CONFIRM t)) then
    some (if startsWithL t (chars "$$") && endsWithL t (chars "$$") then
        ⟨"math_expression", 0, 95⟩
      else if t.contains '$' || hasSub t (chars "\\(") || hasSub t (chars "\\[") then
        ⟨"math_expression", 0, 85⟩
      else ⟨"math_expression", 0, 75⟩)
  else none

/-- Priority 13: footnotes and endnotes; the bare section header gets the
higher confidence. -/
def stFootnoteEndnote : Stage := fun _ t _ =>
  if anyMatch FOOTNOTE_ENDNOTE_PATTERNS t then
    some (if reMatchB true false FOOTNOTE_SECTION_RE t then ⟨"footnote_endnote", 0, 95⟩
      else ⟨"footnote_endnote", 0, 90⟩)
  else none

/-- Priority 14: inline bold/italic formatting, skipped on bullet lines.
The source checks `findall` results for a participating group; every
alternative of each pattern captures a non-empty group, so this is
equivalent to a search. -/
def stInlineFormatting : Stage := fun _ t _ =>
  if !(reMatchB false false BULLET_GUARD t) &&
      anySearch INLINE_FORMATTING_PATTERNS t then
    some (if hasSub t (chars "***") || hasSub t (chars "___") then
        ⟨"inline_formatting", 0, 90⟩
      else if hasSub t (chars "**") || hasSub t (chars "__") then
        ⟨"inline_formatting", 0, 85⟩
      else ⟨"inline_formatting", 0, 85⟩)
  else none

/-- Priority 15: markdown heading hierarchy; the level counts the leading
`#` characters, capped at 6. -/
def stHeadingHierarchy : Stage := fun _ t _ =>
  if anyMatch HEADING_HIERARCHY_PATTERNS t then
    some ⟨"heading_hierarchy", min (t.takeWhile fun c => c = '#').length 6, 95⟩
  else none

/-- Priority 16: academic tables. -/
def stAcademicTable : Stage :=
  stCondT (anyMatch ACADEMIC_TABLE_PATTERNS) "academic_table" 0 95

/-- Priority 17: nested lists. -/
def stListNested : Stage := stCondT (anyMatch LIST_NESTED_PATTERNS) "list_nested" 0 90

/-- Priority 18: figure/equation content (match-or-search, so a search). -/
def stFigureEquation : Stage :=
  stCondT (anySearch FIGURE_EQUATION_PATTERNS) "figure_equation" 0 90

/-- Priority 20: appendix formatting, with the level read off the shape. -/
def stAppendixFormat : Stage := fun _ t _ =>
  if anyMatch APPENDIX_FORMAT_PATTERNS t then
    some (if reMatchB true false APPENDIX_HEADER_RE t then ⟨"appendix_format", 1, 90⟩
      else if reMatchB false false APPENDIX_SUBSEC_RE t then ⟨"appendix_format", 3, 90⟩
      else if reMatchB false false APPENDIX_SEC_RE t then ⟨"appendix_format", 2, 90⟩
      else ⟨"appendix_format", 1, 90⟩)
  else none

/-- Priority 21: block quotes. -/
def stBlockQuote : Stage := stCondT (anyMatch BLOCK_QUOTE_PATTERNS) "block_quote" 0 85

/-- Priority 22: mathematical models (searched). -/
def stMathModel : Stage := stCondT (anySearch MATH_MODEL_PATTERNS) "math_model" 0 85

/-- Priority 24: APA references (match-or-search). -/
def stReferenceApa : Stage :=
  stCondT (anySearch REFERENCE_APA_PATTERNS) "reference_apa" 0 90

/-- Priority 25: TOC entries again, with the later dict value of the
`toc_entry` key. -/
def stTocEntry2 : Stage := stCondT (anyMatch TOC_ENTRY_PATTERNS) "toc_entry" 0 95

/-- Priority 26: footnote markers (searched). -/
def stFootnoteMarker : Stage :=
  stCondT (anySearch FOOTNOTE_MARKER_PATTERNS) "footnote_marker" 0 90

/-- Priority 27: abbreviations; a hit only classifies when the
full-term-with-parenthesised-acronym confirmation also matches. -/
def stAbbreviation : Stage :=
  stCondT (fun t => anySearch ABBREVIATION_PATTERNS t &&
    reSearch false false ABBREVIATION_CONFIRM t) "abbreviation" 0 85

/-- Priority 28: caption formatting. -/
def stCaptionFormat : Stage :=
  stCondT (anyMatch CAPTION_FORMAT_PATTERNS) "caption_format" 0 90

/-- Priority 29: page breaks. -/
def stPageBreak : Stage := stCondT (anyMatch PAGE_BREAK_PATTERNS) "page_break" 0 100

/-- Priority 30: statistical results (searched). -/
def stStatisticalResult : Stage :=
  stCondT (anySearch STATISTICAL_RESULT_PATTERNS) "statistical_result" 0 85

/-- Priority 31: questionnaires (match-or-search). -/
def stQuestionnaire : Stage :=
  stCondT (anySearch QUESTIONNAIRE_PATTERNS) "questionnaire" 0 85

/-- Priority 32: glossary entries. -/
def stGlossaryEntry : Stage :=
  stCondT (anyMatch GLOSSARY_ENTRY_PATTERNS) "glossary_entry" 0 90

/-- Priority 34: running headers. -/
def stRunningHeader : Stage :=
  stCondT (anyMatch RUNNING_HEADER_PATTERNS) "running_header" 0 90

/-- Priority 35: key points. -/
def stKeyPoint : Stage := stCondT keyPointMatches "key_point" 0 90

/-- Priority 36: assignment header fields. -/
def stAssignmentHeader : Stage :=
  stCondT isAssignmentHeaderField "assignment_header_field" 0 90

/-- All returning stages of `analyze_line` in priority order.  The three
fall-through stages (19 `citation_inline`, 23 `text_emphasis`,
33 `cross_reference`) set the type without returning and are folded into
the final default, see `fallbackType`. -/
def STAGES : List Stage :=
  [ stTableMarker, stTableRow, stChapterHeading, stChapterTitle, stFrontMatter,
    stCopyright, stSignature, stTocEntry1, stHeading, stReference,
    stBulletDetect, stBulletList, stNumberedList, stDefinition, stFigure,
    stEquation, stQuote, stCode, stPageMetadata, stAcademicMetadata,
    stMathExpression, stFootnoteEndnote, stInlineFormatting, stHeadingHierarchy,
    stAcademicTable, stListNested, stFigureEquation, stAppendixFormat,
    stBlockQuote, stMathModel, stReferenceApa, stTocEntry2, stFootnoteMarker,
    stAbbreviation, stCaptionFormat, stPageBreak, stStatisticalResult,
    stQuestionnaire, stGlossaryEntry, stRunningHeader, stKeyPoint,
    stAssignmentHeader ]

/-- The first stage that classifies wins. -/
def pick : List Stage → List Char → List Char → Bool → Option Analysis
  | [], _, _, _ => none
  | f :: r, l, t, p =>
    match f l t p with
    | some a => some a
    | none => pick r l t p

/-- When no stage returns, the type last written by a fall-through stage
survives: cross-reference (priority 33) over text emphasis (23) over
inline citation (19) over the plain paragraph default. -/
def fallbackType (t : List Char) : String :=
  if anySearch CROSS_REFERENCE_PATTERNS t then "cross_reference"
  else if anySearch TEXT_EMPHASIS_PATTERNS t then "text_emphasis"
  else if anySearch CITATION_INLINE_PATTERNS t then "citation_inline"
  else "paragraph"

/-- The heading-space cleanup step of `analyze_line`: lines whose lstrip
starts with `#` go through `clean_heading_spaces` first. -/
def lineCleaned (line : List Char) : List Char :=
  if startsWithL (lstripL line) (chars "#") then cleanHeadingSpaces line else line

/-- The `trimmed` string that `analyze_line` classifies: the line after
the conditional heading-space cleanup, stripped. -/
def trimmedOf (line : List Char) : List Char := stripL (lineCleaned line)

/-- `PatternEngine.analyze_line` (source lines 4730-5339), restricted to
the classification type, heading level and confidence.  Heading-marker
lines are space-cleaned first; an empty trim is classified `empty` at
once; otherwise the priority stages run in order and the fall-through
default closes the chain with confidence 0.70.  The dropped dict keys
(`content`, subtypes, spans, page-break and centering flags) are
presentational and never feed back into the classification. -/
def analyzeLine (line : List Char) (prevWasChapter : Bool) : Analysis :=
  if (trimmedOf line).isEmpty then ⟨"empty", 0, 0⟩
  else
    match pick STAGES (lineCleaned line) (trimmedOf line) prevWasChapter with
    | some a => a
    | none => ⟨fallbackType (trimmedOf line), 0, 70⟩

/-- A chapter heading whose trimmed length is 103, past the `is_short`
threshold of 100. -/
def longChapterLine : List Char :=
  chars "CHAPTER ONE: AN EXTENDED INTRODUCTION TO THE STUDY OF PATTERN FORMATTING IN ACADEMIC DOCUMENTS AT LARGE"

/-- A plain prose line whose trimmed length is past the `is_short`
threshold of 100. -/
def longProseLine : List Char :=
  chars "the quick brown fox jumps over the lazy dog while the slow grey wolf watches from a distance in the cold evening air"

/-- Every classification type `analyze_line` can emit. -/
def VALID_TYPES : List String :=
  [ "empty", "paragraph", "table_start", "table_end", "table_caption",
    "table_separator", "table_row", "chapter_heading", "chapter_title",
    "front_matter_heading", "copyright_content", "signature_line", "toc_entry",
    "heading", "reference", "bullet_list", "numbered_list", "definition",
    "figure", "equation", "quote", "code", "page_metadata", "academic_metadata",
    "math_expression", "footnote_endnote", "inline_formatting",
    "heading_hierarchy", "academic_table", "list_nested", "figure_equation",
    "citation_inline", "appendix_format", "block_quote", "math_model",
    "text_emphasis", "reference_apa", "footnote_marker", "abbreviation",
    "caption_format", "page_break", "statistical_result", "questionnaire",
    "glossary_entry", "cross_reference", "running_header", "key_point",
    "assignment_header_field" ]

end PatternEngine

/-! ### Supporting lemmas -/

namespace Facts

lemma takeWhile_all {p : Char → Bool} : ∀ l : List Char, (∀ a ∈ l, p a = true) → l.takeWhile p = l := by
  intro l h
  induction l with
  | nil => rfl
  | cons c t ih =>
    simp only [List.takeWhile_cons]
    rw [h c (by simp)]
    simp [ih fun a ha => h a (by simp [ha])]

lemma dropWhile_all {p : Char → Bool} : ∀ l : List Char, (∀ a ∈ l, p a = true) → l.dropWhile p = [] := by
  intro l h
  induction l with
  | nil => rfl
  | cons c t ih =>
    simp only [List.dropWhile_cons]
    rw [h c (by simp)]
    simp [ih fun a ha => h a (by simp [ha])]

lemma dropWhile_head_not {p : Char → Bool} : ∀ l : List Char, (∀ c, l.head? = some c → p c = false) → l.dropWhile p = l := by
  intro l h
  cases l with
  | nil => rfl
  | cons c t =>
    simp only [List.dropWhile_cons]
    rw [h c rfl]
    simp

lemma mem_takeWhile {p : Char → Bool} : ∀ l : List Char, ∀ a ∈ l.takeWhile p, p a = true := by
  intro l
  induction l with
  | nil => simp
  | cons c t ih =>
    intro a ha
    simp only [List.takeWhile_cons] at ha
    by_cases hc : p c
    · rw [hc] at ha
      simp at ha
      rcases ha with h1 | h2
      · exact h1 ▸ hc
      · exact ih a h2
    · simp [hc] at ha

lemma head?_takeWhile {p : Char → Bool} {l : List Char} {c : Char}
    (h : (l.takeWhile p).head? = some c) : l.head? = some c := by
  cases l with
  | nil => simp [List.takeWhile] at h
  | cons d t =>
    simp only [List.takeWhile_cons] at h
    by_cases hd : p d
    · rw [hd] at h
      simp at h ⊢
      exact h
    · simp [hd] at h

lemma head?_dropWhile {p : Char → Bool} : ∀ {l : List Char} {c : Char},
    (l.dropWhile p).head? = some c → p c = false := by
  intro l
  induction l with
  | nil => intro c h; simp [List.dropWhile] at h
  | cons d t ih =>
    intro c h
    simp only [List.dropWhile_cons] at h
    by_cases hd : p d
    · rw [hd] at h; exact ih h
    · rw [eq_false_of_ne_true hd] at h
      simp at h
      rw [← h]
      exact eq_false_of_ne_true hd

end Facts

namespace HierarchyCorrector

open Facts

/-- Shapes of (suffixes of) tokens produced by `numTok`. -/
inductive TokS : List Char → Prop
  | single (c : Char) : c.isDigit = true → TokS [c]
  | dig (c : Char) (rest : List Char) : c.isDigit = true → TokS rest → TokS (c :: rest)
  | dot (c : Char) (rest : List Char) : c.isDigit = true → TokS (c :: rest) → TokS ('.' :: c :: rest)

lemma tokS_ne_nil {a : List Char} (h : TokS a) : a ≠ [] := by
  cases h <;> simp

lemma numTok_cons_digit (d : Char) (r : List Char) (hd : d.isDigit = true) :
    ∃ q, (numTok (d :: r)).1 = d :: q := by
  cases r with
  | nil => exact ⟨[], by simp [numTok, hd]⟩
  | cons e r2 => exact ⟨(numTok (e :: r2)).1, by simp [numTok, hd]⟩

lemma numTok_tokS : ∀ s : List Char, (numTok s).1 ≠ [] → TokS (numTok s).1 := by
  intro s
  induction s with
  | nil => intro hne; simp [numTok] at hne
  | cons c t ih =>
    intro hne
    cases t with
    | nil =>
      by_cases hc : c.isDigit
      · simp only [numTok, hc, if_true]
        exact TokS.single c hc
      · simp [numTok, hc] at hne
    | cons d r =>
      by_cases hc : c.isDigit
      · simp only [numTok, hc, if_true] at hne ⊢
        cases hq : (numTok (d :: r)).1 with
        | nil => exact hq ▸ TokS.single c hc
        | cons e q =>
          exact TokS.dig c _ hc (hq ▸ ih (by simp [hq]))
      · by_cases hd : c = '.' ∧ d.isDigit = true
        · obtain ⟨hdot, hdig⟩ := hd
          subst hdot
          simp only [numTok, hc, if_false, hdig, if_true, and_true, reduceIte] at hne ⊢
          obtain ⟨q, hq⟩ := numTok_cons_digit d r hdig
          rw [hq]
          exact TokS.dot d q hdig (hq ▸ ih (by simp [hq]))
        · have hcond : (decide (c = '.') && d.isDigit) = false := by
            by_contra hcon
            rw [Bool.not_eq_false, Bool.and_eq_true, decide_eq_true_eq] at hcon
            exact hd ⟨hcon.1, hcon.2⟩
          have hval : numTok (c :: d :: r) = ([], c :: d :: r) := by
            simp [numTok, hc, hcond]
          rw [hval] at hne
          simp at hne

lemma numTok_extend {a : List Char} (h : TokS a) (t : List Char) :
    numTok (a ++ '.' :: '1' :: ' ' :: t) = (a ++ ['.', '1'], ' ' :: t) := by
  have hdotd : ('.' : Char).isDigit = false := by decide
  have h1d : ('1' : Char).isDigit = true := by decide
  have hspd : (' ' : Char).isDigit = false := by decide
  have hspdot : ((' ' : Char) = '.') = False := by simp
  induction h with
  | single c hc =>
    cases t with
    | nil => simp [numTok, hc, hdotd, h1d, hspd]
    | cons u t2 => simp [numTok, hc, hdotd, h1d, hspd, hspdot]
  | dig c rest hc hrest ih =>
    cases rest with
    | nil => exact absurd rfl (tokS_ne_nil hrest)
    | cons z zs =>
      simp only [List.cons_append, numTok, hc, if_true]
      rw [show (z :: zs) ++ '.' :: '1' :: ' ' :: t = z :: (zs ++ '.' :: '1' :: ' ' :: t) from rfl] at ih
      simp [ih]
  | dot c rest hc hcr ih =>
    simp only [List.cons_append, numTok, hdotd, hc, if_false, and_true, reduceIte]
    rw [show (c :: rest) ++ '.' :: '1' :: ' ' :: t = c :: (rest ++ '.' :: '1' :: ' ' :: t) from rfl] at ih
    simp [ih]

lemma parse_some_elim {s nu t : List Char} (h : parseNumbered s = some (nu, t)) :
    TokS nu ∧ (nu.headD ' ').isDigit = true ∧ '\n' ∉ t ∧
      (∀ c, t.head? = some c → pyIsSpace c = false) := by
  unfold parseNumbered at h
  by_cases hd : (s.headD ' ').isDigit
  · rw [if_pos hd] at h
    simp only at h
    by_cases he : (((numTok s).2.takeWhile pyIsSpace).isEmpty : Bool)
    · rw [if_pos he] at h; exact absurd h (by simp)
    · rw [if_neg he] at h
      have hmain : nu = (numTok s).1 ∧
          t = (((numTok s).2.dropWhile pyIsSpace).takeWhile fun c => c ≠ '\n') := by
        by_cases hr1 : ((((numTok s).2.dropWhile pyIsSpace).dropWhile fun c => c ≠ '\n').isEmpty : Bool)
        · rw [if_pos hr1] at h
          have := Option.some.inj h
          exact ⟨(Prod.mk.injEq .. ▸ this).1.symm, (Prod.mk.injEq .. ▸ this).2.symm⟩
        · rw [if_neg hr1] at h
          by_cases hr2 : (((numTok s).2.dropWhile pyIsSpace).dropWhile fun c => c ≠ '\n') = ['\n']
          · rw [if_pos hr2] at h
            have := Option.some.inj h
            exact ⟨(Prod.mk.injEq .. ▸ this).1.symm, (Prod.mk.injEq .. ▸ this).2.symm⟩
          · rw [if_neg hr2] at h; exact absurd h (by simp)
      obtain ⟨hnu, ht⟩ := hmain
      have hs : ∃ c q, s = c :: q ∧ c.isDigit = true := by
        cases s with
        | nil => simp at hd
        | cons c q => exact ⟨c, q, rfl, by simpa using hd⟩
      obtain ⟨c, q, hsc, hcd⟩ := hs
      have hnunil : (numTok s).1 ≠ [] := by
        subst hsc
        obtain ⟨q2, hq2⟩ := numTok_cons_digit c q hcd
        simp [hq2]
      refine ⟨hnu ▸ numTok_tokS s hnunil, ?_, ?_, ?_⟩
      · subst hsc
        obtain ⟨q2, hq2⟩ := numTok_cons_digit c q hcd
        rw [hnu, hq2]
        simpa using hcd
      · intro hmem
        rw [ht] at hmem
        have := mem_takeWhile _ _ hmem
        simp at this
      · intro ch hch
        rw [ht] at hch
        exact head?_dropWhile (head?_takeWhile hch)
  · rw [if_neg hd] at h; exact absurd h (by simp)

lemma parse_rebuild {s1 nu t1 s2 n2 t2 : List Char}
    (h1 : parseNumbered s1 = some (nu, t1)) (h2 : parseNumbered s2 = some (n2, t2)) :
    parseNumbered (nu ++ '.' :: '1' :: ' ' :: t2) = some (nu ++ ['.', '1'], t2) := by
  obtain ⟨htok, hdig, -, -⟩ := parse_some_elim h1
  obtain ⟨-, -, hnl, hhd⟩ := parse_some_elim h2
  have hne := tokS_ne_nil htok
  have hhead : ((nu ++ '.' :: '1' :: ' ' :: t2).headD ' ').isDigit = true := by
    cases nu with
    | nil => exact absurd rfl hne
    | cons c q => simpa using hdig
  rw [parseNumbered, if_pos hhead, numTok_extend htok]
  simp only
  have hsp : pyIsSpace ' ' = true := by decide
  have htw : (' ' :: t2).takeWhile pyIsSpace = ' ' :: t2.takeWhile pyIsSpace := by
    simp [List.takeWhile_cons, hsp]
  have hdw : (' ' :: t2).dropWhile pyIsSpace = t2 := by
    rw [List.dropWhile_cons, hsp]
    simp only [if_true]
    exact dropWhile_head_not t2 hhd
  have htw2 : (t2.takeWhile fun c => c ≠ '\n') = t2 :=
    takeWhile_all t2 (by intro a ha; simp; exact fun h => hnl (h ▸ ha))
  have hdw2 : (t2.dropWhile fun c => c ≠ '\n') = [] :=
    dropWhile_all t2 (by intro a ha; simp; exact fun h => hnl (h ▸ ha))
  rw [htw, hdw, htw2, hdw2]
  simp

lemma correctLines_two (c x : List Char) (r : List (List Char)) :
    correctLines (c :: x :: r) =
      match parseNumbered c with
      | none => c :: correctLines (x :: r)
      | some (nu, t1) =>
        match parseNumbered x with
        | some (_, t2) =>
          if isHierarchicalPair t1 t2 then
            c :: (nu ++ '.' :: '1' :: ' ' :: t2) :: correctLines r
          else c :: correctLines (x :: r)
        | none => c :: correctLines (x :: r) := by
  rfl

lemma cl_none {c : List Char} (x : List Char) (r : List (List Char))
    (h : parseNumbered c = none) :
    correctLines (c :: x :: r) = c :: correctLines (x :: r) := by
  rw [correctLines_two, h]

lemma cl_xnone {c x : List Char} {nu t1 : List Char} (r : List (List Char))
    (hc : parseNumbered c = some (nu, t1)) (hx : parseNumbered x = none) :
    correctLines (c :: x :: r) = c :: correctLines (x :: r) := by
  rw [correctLines_two, hc, hx]

lemma cl_pair {c x : List Char} {nu t1 n2 t2 : List Char} (r : List (List Char))
    (hc : parseNumbered c = some (nu, t1)) (hx : parseNumbered x = some (n2, t2))
    (hp : isHierarchicalPair t1 t2 = true) :
    correctLines (c :: x :: r) = c :: (nu ++ '.' :: '1' :: ' ' :: t2) :: correctLines r := by
  rw [correctLines_two, hc, hx]
  simp only [hp, if_true]

lemma cl_nopair {c x : List Char} {nu t1 n2 t2 : List Char} (r : List (List Char))
    (hc : parseNumbered c = some (nu, t1)) (hx : parseNumbered x = some (n2, t2))
    (hp : isHierarchicalPair t1 t2 = false) :
    correctLines (c :: x :: r) = c :: correctLines (x :: r) := by
  rw [correctLines_two, hc, hx]
  simp only [hp, Bool.false_eq_true, if_false]

lemma correctLines_head (c : List Char) (l : List (List Char)) :
    ∃ q, correctLines (c :: l) = c :: q := by
  cases l with
  | nil => exact ⟨[], rfl⟩
  | cons x r =>
    cases hc : parseNumbered c with
    | none => exact ⟨_, cl_none x r hc⟩
    | some p =>
      obtain ⟨nu, t1⟩ := p
      cases hx : parseNumbered x with
      | none => exact ⟨_, cl_xnone r hc hx⟩
      | some p2 =>
        obtain ⟨n2, t2⟩ := p2
        cases hp : isHierarchicalPair t1 t2 with
        | true => exact ⟨_, cl_pair r hc hx hp⟩
        | false => exact ⟨_, cl_nopair r hc hx hp⟩

lemma correctLines_idem_aux : ∀ (n : Nat) (ls : List (List Char)), ls.length ≤ n →
    correctLines (correctLines ls) = correctLines ls := by
  intro n
  induction n with
  | zero =>
    intro ls h
    have : ls = [] := List.length_eq_zero.mp (Nat.le_zero.mp h)
    subst this
    rfl
  | succ n ih =>
    intro ls h
    match ls with
    | [] => rfl
    | [c] => rfl
    | c :: x :: r =>
      have hxr : (x :: r).length ≤ n := by simpa using h
      have hr : r.length ≤ n := le_trans (by simp) hxr
      cases hc : parseNumbered c with
      | none =>
        obtain ⟨q, hq⟩ := correctLines_head x r
        rw [cl_none x r hc, hq, cl_none x q hc, ← hq, ih _ hxr]
      | some p =>
        obtain ⟨nu, t1⟩ := p
        cases hx : parseNumbered x with
        | none =>
          obtain ⟨q, hq⟩ := correctLines_head x r
          rw [cl_xnone r hc hx, hq, cl_xnone q hc hx, ← hq, ih _ hxr]
        | some p2 =>
          obtain ⟨n2, t2⟩ := p2
          cases hp : isHierarchicalPair t1 t2 with
          | true =>
            rw [cl_pair r hc hx hp,
              cl_pair (correctLines r) hc (parse_rebuild hc hx) hp, ih _ hr]
          | false =>
            obtain ⟨q, hq⟩ := correctLines_head x r
            rw [cl_nopair r hc hx hp, hq, cl_nopair q hc hx hp, ← hq, ih _ hxr]

end HierarchyCorrector

namespace FigureFormatter

open Rex

/-- Invariant threaded through the detection passes: every recorded entry
span is in the seen set, and entry spans are pairwise distinct. -/
def DInv (acc : List (Nat × Nat) × List DetEntry) : Prop :=
  (∀ e ∈ acc.2, (e.startPos, e.endPos) ∈ acc.1) ∧
    acc.2.Pairwise fun a b => (a.startPos, a.endPos) ≠ (b.startPos, b.endPos)

lemma addMatches_inv (name : String) (ms : List (Nat × Nat))
    (acc : List (Nat × Nat) × List DetEntry) (h : DInv acc) :
    DInv (addMatches name ms acc) := by
  unfold addMatches
  induction ms generalizing acc with
  | nil => exact h
  | cons se rest ih =>
    simp only [List.foldl_cons]
    by_cases hc : acc.1.contains se
    · rw [if_pos hc]
      exact ih acc h
    · rw [if_neg hc]
      refine ih _ ⟨?_, ?_⟩
      · intro e he
        simp at he
        rcases he with he | he
        · simp [h.1 e he]
        · simp [he]
      · rw [List.pairwise_append]
        refine ⟨h.2, by simp, ?_⟩
        intro a ha b hb
        simp at hb
        subst hb
        simp only [ne_eq]
        intro hcon
        apply hc
        have := h.1 a ha
        rw [hcon] at this
        simpa using this

lemma passes_inv (passes : List (String × RE × Bool)) (text : List Char)
    (acc : List (Nat × Nat) × List DetEntry) (h : DInv acc) :
    DInv (passes.foldl
      (fun acc p => addMatches p.1 (reFinditer true p.2.2 p.2.1 text) acc) acc) := by
  induction passes generalizing acc with
  | nil => exact h
  | cons p rest ih =>
    simp only [List.foldl_cons]
    exact ih _ (addMatches_inv p.1 _ acc h)

lemma trackNums_nodup (gs : List (List Char)) :
    ∀ init : List (List Char), init.Nodup → (trackNums init gs).Nodup := by
  induction gs with
  | nil => intro init h; exact h
  | cons g rest ih =>
    intro init h
    unfold trackNums
    simp only [List.foldl_cons]
    by_cases hc : init.contains g
    · rw [if_pos hc]
      exact ih init h
    · rw [if_neg hc]
      refine ih _ ?_
      rw [List.nodup_append]
      refine ⟨h, by simp, ?_⟩
      intro a ha
      simp only [List.mem_singleton]
      intro hb
      subst hb
      exact absurd (by simpa using ha : a ∈ init) (by simpa using hc)

lemma dupScan_nil (l : List (List Char)) (hl : l.Nodup) :
    ∀ seen, (∀ x ∈ l, x ∉ seen) → dupScan seen l = [] := by
  induction l with
  | nil => intro seen _; rfl
  | cons n rest ih =>
    intro seen hs
    unfold dupScan
    rw [if_neg (by simpa using hs n (by simp))]
    refine ih (List.Nodup.of_cons hl) _ ?_
    intro x hx
    simp only [List.mem_cons]
    rintro (hx2 | hx2)
    · subst hx2
      exact absurd hx (by simpa using (List.nodup_cons.mp hl).1)
    · exact hs x (by simp [hx]) hx2

lemma validate_no_mutation (st : FigState) (out : VOut) (st2 : FigState)
    (h : validateNumbering st = some (out, st2)) :
    st2.figureNumbers = st.figureNumbers := by
  unfold validateNumbering at h
  by_cases he : st.figureNumbers.isEmpty
  · simp only [he, if_true] at h
    obtain ⟨-, h2⟩ := Prod.mk.injEq .. ▸ Option.some.inj h
    rw [← h2]
  · simp only [he, Bool.false_eq_true, if_false] at h
    cases hm : st.figureNumbers.mapM parseFig with
    | none => rw [hm] at h; exact absurd h (by simp)
    | some parsed =>
      rw [hm] at h
      simp only at h
      obtain ⟨-, h2⟩ := Prod.mk.injEq .. ▸ Option.some.inj h
      rw [← h2]

lemma validate_no_dup (st : FigState) (out : VOut) (st2 : FigState)
    (hnd : st.figureNumbers.Nodup)
    (h : validateNumbering st = some (out, st2)) :
    ∀ ns, FigIssue.duplicates ns ∉ out.issues := by
  unfold validateNumbering at h
  by_cases he : st.figureNumbers.isEmpty
  · simp only [he, if_true] at h
    obtain ⟨h1, -⟩ := Prod.mk.injEq .. ▸ Option.some.inj h
    rw [← h1]
    simp
  · simp only [he, Bool.false_eq_true, if_false] at h
    cases hm : st.figureNumbers.mapM parseFig with
    | none => rw [hm] at h; exact absurd h (by simp)
    | some parsed =>
      rw [hm] at h
      simp only at h
      obtain ⟨h1, -⟩ := Prod.mk.injEq .. ▸ Option.some.inj h
      rw [← h1]
      intro ns
      have hd : dupScan [] st.figureNumbers = [] :=
        dupScan_nil st.figureNumbers hnd [] (by simp)
      simp only [hd, List.isEmpty_nil, if_true, List.append_nil]
      by_cases hmiss : (((List.range' 1 (List.foldl max 0 (List.map (fun p => p.1) parsed))).filter
          fun n => !(List.map (fun p => p.1) parsed).contains n).isEmpty : Bool)
      · simp [hmiss]
      · simp [hmiss]

end FigureFormatter

namespace PatternEngine

/-- If a strip is empty, the lstrip already was: the strip removes only
whitespace, and a non-empty lstrip starts with a non-space character that
the rstrip cannot remove. -/
lemma stripL_nil_lstrip {l : List Char} (h : stripL l = []) : lstripL l = [] := by
  unfold stripL rstripL at h
  have h2 : (lstripL l).reverse.dropWhile pyIsSpace = [] := by
    have := congrArg List.reverse h
    simpa using this
  have hall : ∀ x ∈ (lstripL l).reverse, pyIsSpace x := by
    rw [List.dropWhile_eq_nil_iff] at h2
    exact h2
  cases hl : lstripL l with
  | nil => rfl
  | cons c cs =>
    have hc : pyIsSpace c = false := by
      apply Facts.head?_dropWhile (p := pyIsSpace) (l := l)
      unfold lstripL at hl
      rw [hl]
      rfl
    have : pyIsSpace c = true := hall c (by simp [hl])
    rw [this] at hc
    exact absurd hc (by simp)

/-- A whitespace-only line is not cleaned: its lstrip is empty, so it does
not start with a heading marker. -/
lemma lineCleaned_of_stripNil {line : List Char} (h : stripL line = []) :
    lineCleaned line = line := by
  unfold lineCleaned
  rw [stripL_nil_lstrip h]
  rfl

/-- The joint stage invariant: every classification a stage returns has a
valid type, and the generic `heading` type only appears below the
`is_short` length threshold. -/
def StageOk (t : List Char) (a : Analysis) : Prop :=
  a.type ∈ VALID_TYPES ∧ (a.type = "heading" → t.length < 100)

lemma stCondT_elim {c : List Char → Bool} {ty : String} {lvl conf : Nat}
    {l t : List Char} {p : Bool} {a : Analysis}
    (h : stCondT c ty lvl conf l t p = some a) : a = ⟨ty, lvl, conf⟩ := by
  unfold stCondT at h
  split at h
  · exact (Option.some.inj h).symm
  · exact absurd h (by simp)

lemma stTableMarker_ok {l t : List Char} {p : Bool} {a : Analysis}
    (h : stTableMarker l t p = some a) : StageOk t a := by
  unfold stTableMarker at h
  split at h
  · have := Option.some.inj h
    subst this
    constructor
    · split
      · decide
      · split <;> decide
    · split
      · intro hx; exact absurd hx (by decide)
      · split <;> (intro hx; exact absurd hx (by decide))
  · exact absurd h (by simp)

lemma stTableRow_ok {l t : List Char} {p : Bool} {a : Analysis}
    (h : stTableRow l t p = some a) : StageOk t a := by
  unfold stTableRow at h
  split at h
  · have := Option.some.inj h
    subst this
    constructor
    · split <;> decide
    · split <;> (intro hx; exact absurd hx (by decide))
  · exact absurd h (by simp)

lemma stHeading_ok {l t : List Char} {p : Bool} {a : Analysis}
    (h : stHeading l t p = some a) : StageOk t a := by
  unfold stHeading at h
  split at h
  · rename_i hgate
    have hlen : t.length < 100 := by
      have := (Bool.and_eq_true _ _).mp hgate |>.1
      simpa using this
    split at h
    · have := Option.some.inj h; subst this; exact ⟨by decide, fun _ => hlen⟩
    · split at h
      · have := Option.some.inj h; subst this; exact ⟨by decide, fun _ => hlen⟩
      · split at h
        · have := Option.some.inj h; subst this; exact ⟨by decide, fun _ => hlen⟩
        · split at h
          · have := Option.some.inj h; subst this; exact ⟨by decide, fun _ => hlen⟩
          · split at h
            · have := Option.some.inj h; subst this; exact ⟨by decide, fun _ => hlen⟩
            · exact absurd h (by simp)
  · exact absurd h (by simp)

lemma stChapterTitle_ok {l t : List Char} {p : Bool} {a : Analysis}
    (h : stChapterTitle l t p = some a) : StageOk t a := by
  unfold stChapterTitle at h
  split at h
  · split at h
    · have := Option.some.inj h; subst this
      exact ⟨by decide, fun hx => absurd hx (by decide)⟩
    · exact absurd h (by simp)
  · exact absurd h (by simp)

lemma stBulletDetect_ok {l t : List Char} {p : Bool} {a : Analysis}
    (h : stBulletDetect l t p = some a) : StageOk t a := by
  unfold stBulletDetect at h
  split at h
  · have := Option.some.inj h; subst this
    exact ⟨by decide, fun hx => absurd hx (by decide)⟩
  · exact absurd h (by simp)

lemma stMathExpression_ok {l t : List Char} {p : Bool} {a : Analysis}
    (h : stMathExpression l t p = some a) : StageOk t a := by
  unfold stMathExpression at h
  split at h
  · have := Option.some.inj h; subst this
    constructor
    · split
      · decide
      · split <;> decide
    · split
      · intro hx; exact absurd hx (by decide)
      · split <;> (intro hx; exact absurd hx (by decide))
  · exact absurd h (by simp)

lemma stFootnoteEndnote_ok {l t : List Char} {p : Bool} {a : Analysis}
    (h : stFootnoteEndnote l t p = some a) : StageOk t a := by
  unfold stFootnoteEndnote at h
  split at h
  · have := Option.some.inj h; subst this
    constructor
    · split <;> decide
    · split <;> (intro hx; exact absurd hx (by decide))
  · exact absurd h (by simp)

lemma stInlineFormatting_ok {l t : List Char} {p : Bool} {a : Analysis}
    (h : stInlineFormatting l t p = some a) : StageOk t a := by
  unfold stInlineFormatting at h
  split at h
  · have := Option.some.inj h; subst this
    constructor
    · split
      · decide
      · split <;> decide
    · split
      · intro hx; exact absurd hx (by decide)
      · split <;> (intro hx; exact absurd hx (by decide))
  · exact absurd h (by simp)

lemma stHeadingHierarchy_ok {l t : List Char} {p : Bool} {a : Analysis}
    (h : stHeadingHierarchy l t p = some a) : StageOk t a := by
  unfold stHeadingHierarchy at h
  split at h
  · have := Option.some.inj h; subst this
    refine ⟨show "heading_hierarchy" ∈ VALID_TYPES from by decide, fun hx => ?_⟩
    exact absurd (show "heading_hierarchy" = "heading" from hx) (by decide)
  · exact absurd h (by simp)

lemma stAppendixFormat_ok {l t : List Char} {p : Bool} {a : Analysis}
    (h : stAppendixFormat l t p = some a) : StageOk t a := by
  unfold stAppendixFormat at h
  split at h
  · have := Option.some.inj h; subst this
    constructor
    · split
      · decide
      · split
        · decide
        · split <;> decide
    · split
      · intro hx; exact absurd hx (by decide)
      · split
        · intro hx; exact absurd hx (by decide)
        · split <;> (intro hx; exact absurd hx (by decide))
  · exact absurd h (by simp)

lemma stCondT_ok {c : List Char → Bool} {ty : String} {lvl conf : Nat}
    (hty : ty ∈ VALID_TYPES) (hne : ¬ ty = "heading")
    {l t : List Char} {p : Bool} {a : Analysis}
    (h : stCondT c ty lvl conf l t p = some a) : StageOk t a := by
  rw [stCondT_elim h]
  exact ⟨hty, fun hx => absurd hx hne⟩

/-- Every stage of the priority chain satisfies the joint invariant. -/
lemma stages_ok : ∀ f ∈ STAGES, ∀ l t p a, f l t p = some a → StageOk t a := by
  intro f hf
  simp only [STAGES, List.mem_cons, List.not_mem_nil, or_false] at hf
  rcases hf with rfl | rfl | rfl | rfl | rfl | rfl | rfl | rfl | rfl | rfl |
    rfl | rfl | rfl | rfl | rfl | rfl | rfl | rfl | rfl | rfl |
    rfl | rfl | rfl | rfl | rfl | rfl | rfl | rfl | rfl | rfl |
    rfl | rfl | rfl | rfl | rfl | rfl | rfl | rfl | rfl | rfl |
    rfl | rfl
  · exact fun l t p a h => stTableMarker_ok h
  · exact fun l t p a h => stTableRow_ok h
  · exact fun l t p a h => stCondT_ok (by decide) (by decide) h
  · exact fun l t p a h => stChapterTitle_ok h
  · exact fun l t p a h => stCondT_ok (by decide) (by decide) h
  · exact fun l t p a h => stCondT_ok (by decide) (by decide) h
  · exact fun l t p a h => stCondT_ok (by decide) (by decide) h
  · exact fun l t p a h => stCondT_ok (by decide) (by decide) h
  · exact fun l t p a h => stHeading_ok h
  · exact fun l t p a h => stCondT_ok (by decide) (by decide) h
  · exact fun l t p a h => stBulletDetect_ok h
  · exact fun l t p a h => stCondT_ok (by decide) (by decide) h
  · exact fun l t p a h => stCondT_ok (by decide) (by decide) h
  · exact fun l t p a h => stCondT_ok (by decide) (by decide) h
  · exact fun l t p a h => stCondT_ok (by decide) (by decide) h
  · exact fun l t p a h => stCondT_ok (by decide) (by decide) h
  · exact fun l t p a h => stCondT_ok (by decide) (by decide) h
  · exact fun l t p a h => stCondT_ok (by decide) (by decide) h
  · exact fun l t p a h => stCondT_ok (by decide) (by decide) h
  · exact fun l t p a h => stCondT_ok (by decide) (by decide) h
  · exact fun l t p a h => stMathExpression_ok h
  · exact fun l t p a h => stFootnoteEndnote_ok h
  · exact fun l t p a h => stInlineFormatting_ok h
  · exact fun l t p a h => stHeadingHierarchy_ok h
  · exact fun l t p a h => stCondT_ok (by decide) (by decide) h
  · exact fun l t p a h => stCondT_ok (by decide) (by decide) h
  · exact fun l t p a h => stCondT_ok (by decide) (by decide) h
  · exact fun l t p a h => stAppendixFormat_ok h
  · exact fun l t p a h => stCondT_ok (by decide) (by decide) h
  · exact fun l t p a h => stCondT_ok (by decide) (by decide) h
  · exact fun l t p a h => stCondT_ok (by decide) (by decide) h
  · exact fun l t p a h => stCondT_ok (by decide) (by decide) h
  · exact fun l t p a h => stCondT_ok (by decide) (by decide) h
  · exact fun l t p a h => stCondT_ok (by decide) (by decide) h
  · exact fun l t p a h => stCondT_ok (by decide) (by decide) h
  · exact fun l t p a h => stCondT_ok (by decide) (by decide) h
  · exact fun l t p a h => stCondT_ok (by decide) (by decide) h
  · exact fun l t p a h => stCondT_ok (by decide) (by decide) h
  · exact fun l t p a h => stCondT_ok (by decide) (by decide) h
  · exact fun l t p a h => stCondT_ok (by decide) (by decide) h
  · exact fun l t p a h => stCondT_ok (by decide) (by decide) h
  · exact fun l t p a h => stCondT_ok (by decide) (by decide) h

/-- The invariant carries through the priority chain. -/
lemma pick_ok : ∀ ss : List Stage,
    (∀ f ∈ ss, ∀ l t p a, f l t p = some a → StageOk t a) →
    ∀ l t p a, pick ss l t p = some a → StageOk t a := by
  intro ss
  induction ss with
  | nil =>
    intro _ l t p a h
    exact absurd h (by simp [pick])
  | cons f r ih =>
    intro H l t p a h
    unfold pick at h
    cases hf : f l t p with
    | some b =>
      rw [hf] at h
      exact (Option.some.inj h) ▸ H f (by simp) l t p b hf
    | none =>
      rw [hf] at h
      exact ih (fun g hg => H g (List.mem_cons_of_mem f hg)) l t p a h

end PatternEngine

/-! ### Claim theorems -/

open HierarchyCorrector HeadingNumberer

/-- C2: `HierarchyCorrector.correct_lines` is idempotent: for every list of
lines `x`, `correct_lines (correct_lines x) = correct_lines x`. -/
theorem c2_correctLines_idempotent (ls : List (List Char)) :
    correctLines (correctLines ls) = correctLines ls :=
  correctLines_idem_aux ls.length ls le_rfl

/-- C3: for every adjacent pair of numbered heading lines whose titles form
a hierarchical pair, `correct_lines` emits the child immediately after the
parent renumbered as `parentNumber.1`; in particular
`["3.6 WEEK TWO", "3.7 DAY ONE"]` becomes `["3.6 WEEK TWO", "3.6.1 DAY ONE"]`
and `["1.1 ANALYSIS", "1.2 FINDING 1"]` becomes
`["1.1 ANALYSIS", "1.1.1 FINDING 1"]`. -/
theorem c3_correctLines_hierarchical_pair
    (c x : List Char) (r : List (List Char)) (nu t1 n2 t2 : List Char)
    (hc : parseNumbered c = some (nu, t1)) (hx : parseNumbered x = some (n2, t2))
    (hp : isHierarchicalPair t1 t2 = true) :
    correctLines (c :: x :: r) = c :: (nu ++ '.' :: '1' :: ' ' :: t2) :: correctLines r ∧
    correctLines [chars "3.6 WEEK TWO", chars "3.7 DAY ONE"]
      = [chars "3.6 WEEK TWO", chars "3.6.1 DAY ONE"] ∧
    correctLines [chars "1.1 ANALYSIS", chars "1.2 FINDING 1"]
      = [chars "1.1 ANALYSIS", chars "1.1.1 FINDING 1"] :=
  ⟨cl_pair r hc hx hp, by decide, by decide⟩

/-- Witness for C3 at the `3.6 WEEK TWO` / `3.7 DAY ONE` input. -/
theorem c3_correctLines_hierarchical_pair_witness :
    parseNumbered (chars "3.6 WEEK TWO") = some (chars "3.6", chars "WEEK TWO") ∧
    parseNumbered (chars "3.7 DAY ONE") = some (chars "3.7", chars "DAY ONE") ∧
    isHierarchicalPair (chars "WEEK TWO") (chars "DAY ONE") = true ∧
    correctLines [chars "3.6 WEEK TWO", chars "3.7 DAY ONE"]
      = [chars "3.6 WEEK TWO", chars "3.6" ++ '.' :: '1' :: ' ' :: chars "DAY ONE"] :=
  ⟨by decide, by decide, by decide,
    (c3_correctLines_hierarchical_pair (chars "3.6 WEEK TWO") (chars "3.7 DAY ONE") []
      (chars "3.6") (chars "WEEK TWO") (chars "3.7") (chars "DAY ONE")
      (by decide) (by decide) (by decide)).1⟩

/-- C5: `number_heading` on a chapter heading sets the chapter counter to
the parsed value, resets the section, subsection and subsubsection counters
to 0, clears the open parent-section context, and returns the heading
unchanged and unnumbered; `parse_chapter_number` returns 1 on each of
`CHAPTER ONE`, `CHAPTER 1` and `CHAPTER I`. -/
theorem c5_numberHeading_chapter (st : NState) (text : List Char)
    (h : 0 < parseChapterNumber text) :
    (numberHeading st text =
      ({ original := text, numbered := text, number := none, level := 1,
         chapter := parseChapterNumber text, wasRenumbered := false },
       { st with currentChapter := parseChapterNumber text, currentSection := 0,
                 currentSubsection := 0, currentSubsubsection := 0,
                 inAppendix := false, inParentSection := none,
                 parentSectionNumber := [], lastHeadingText := [],
                 lastHeadingNormalized := [] })) ∧
    parseChapterNumber (chars "CHAPTER ONE") = 1 ∧
    parseChapterNumber (chars "CHAPTER 1") = 1 ∧
    parseChapterNumber (chars "CHAPTER I") = 1 := by
  refine ⟨?_, by decide, by decide, by decide⟩
  unfold numberHeading
  simp only [if_pos h]

/-- Witness for C5 at `CHAPTER ONE` from a freshly reset state. -/
theorem c5_numberHeading_chapter_witness :
    0 < parseChapterNumber (chars "CHAPTER ONE") ∧
    (numberHeading resetState (chars "CHAPTER ONE")).2.currentChapter = 1 ∧
    (numberHeading resetState (chars "CHAPTER ONE")).1.numbered = chars "CHAPTER ONE" :=
  ⟨by decide,
   by rw [(c5_numberHeading_chapter resetState (chars "CHAPTER ONE") (by decide)).1]; decide,
   by rw [(c5_numberHeading_chapter resetState (chars "CHAPTER ONE") (by decide)).1]⟩

/-- C4 counterexample: `Research Objectives` opens the parent section
`research objectives` and is numbered `1.1` at level 2, and
`Specific Recommendations` begins with the explicit subsection indicator
`Specific`, yet the next call numbers it `1.2` at level 2 rather than
`1.1.1` at level 3, because its text contains the main-section keyword
`recommendations`. -/
theorem c4_forced_child_counterexample :
    (numberHeading resetState (chars "CHAPTER ONE")).2.currentChapter = 1 ∧
    (numberHeading (numberHeading resetState (chars "CHAPTER ONE")).2
        (chars "Research Objectives")).1.level = 2 ∧
    (numberHeading (numberHeading resetState (chars "CHAPTER ONE")).2
        (chars "Research Objectives")).1.number = some (chars "1.1") ∧
    (numberHeading (numberHeading resetState (chars "CHAPTER ONE")).2
        (chars "Research Objectives")).2.inParentSection
      = some (chars "research objectives") ∧
    isSubsectionIndicator (chars "Specific Recommendations") = true ∧
    (numberHeading
        (numberHeading (numberHeading resetState (chars "CHAPTER ONE")).2
          (chars "Research Objectives")).2
        (chars "Specific Recommendations")).1.level = 2 ∧
    (numberHeading
        (numberHeading (numberHeading resetState (chars "CHAPTER ONE")).2
          (chars "Research Objectives")).2
        (chars "Specific Recommendations")).1.number = some (chars "1.2") := by
  decide

/-- C4 (amended): once a parent section is open with number `C.S`, an
immediately following heading that matches a known child keyword of that
parent or begins with an explicit subsection indicator is forced to level 3
and numbered `C.S.1`, provided its text contains no main-section keyword
(and is itself no chapter, appendix, front-matter or chapter-title
heading). -/
theorem c4_forced_child_amended (st : NState) (p child : List Char)
    (hch : ¬ st.currentChapter = 0)
    (hap : st.inAppendix = false)
    (hsec : ¬ st.currentSection = 0)
    (hsub : st.currentSubsection = 0)
    (hpar : st.inParentSection = some p)
    (hnotchap : parseChapterNumber child = 0)
    (hnotapp : isAppendixHeading child = false)
    (hnotunn : isUnnumberedSection child = false)
    (hnotct : isChapterTitle child = false)
    (hmain : (MAIN_SECTION_KEYWORDS.any fun k => hasSub (normalizeText child) k) = false)
    (hroute : isSubsectionIndicator child = true ∨ isChildOfParent child p = true) :
    (numberHeading st child).1.level = 3 ∧
    (numberHeading st child).1.number =
      some (natStr st.currentChapter ++ '.' :: natStr st.currentSection ++ '.' :: natStr 1) := by
  have hsb : shouldBeSubsection st child = (true, st) := by
    unfold shouldBeSubsection
    simp only [hmain, Bool.false_eq_true, if_false]
    rcases hroute with hi | hcp
    · simp [hi]
    · by_cases hi : isSubsectionIndicator child
      · simp [hi]
      · simp only [hi, Bool.false_eq_true, if_false, hpar, hcp, Bool.true_or, if_true]
  have hnh : numberHeading st child = numberHeadingMain st child := by
    unfold numberHeading
    simp only [hnotchap, hnotapp, hnotunn, hnotct, Nat.lt_irrefl, if_false,
      Bool.false_eq_true, hap, Bool.not_false, Bool.and_true, decide_eq_true_eq, hch]
  rw [hnh]
  unfold numberHeadingMain
  simp only [hsb, targetLevelOf, if_pos rfl, Bool.true_and, decide_eq_true_eq]
  norm_num
  unfold stepSubsection
  simp only [hsub, hap, if_neg hsec, Bool.false_eq_true, if_false]
  constructor
  · split <;> rfl
  · split <;> simp

/-- Witness for C4 (amended): parent `Research Objectives` numbered `1.4`
with the parent context open, then `Main Research Objective` numbered
`1.4.1` at level 3, the example from the specification. -/
theorem c4_forced_child_amended_witness :
    ((numberHeading { resetState with currentChapter := 1, currentSection := 3 }
        (chars "Research Objectives")).1.number = some (chars "1.4") ∧
     (numberHeading { resetState with currentChapter := 1, currentSection := 3 }
        (chars "Research Objectives")).2.inParentSection
       = some (chars "research objectives")) ∧
    (numberHeading
        (numberHeading { resetState with currentChapter := 1, currentSection := 3 }
          (chars "Research Objectives")).2
        (chars "Main Research Objective")).1.level = 3 ∧
    (numberHeading
        (numberHeading { resetState with currentChapter := 1, currentSection := 3 }
          (chars "Research Objectives")).2
        (chars "Main Research Objective")).1.number = some (chars "1.4.1") := by
  refine ⟨by decide, ?_⟩
  have h := c4_forced_child_amended
    (numberHeading { resetState with currentChapter := 1, currentSection := 3 }
      (chars "Research Objectives")).2
    (chars "research objectives") (chars "Main Research Objective")
    (by decide) (by decide) (by decide) (by decide) (by decide)
    (by decide) (by decide) (by decide) (by decide) (by decide)
    (Or.inl (by decide))
  refine ⟨h.1, ?_⟩
  rw [h.2]
  decide

/-- C6: `validate_numbering` reports every integer missing from the dense
range `1..max` of the distinct leading numbers as a missing-numbers issue
and every repeated literal number string as a duplicate issue, without
mutating the collected numbers; for `1, 2, 4` it reports `3` missing and
no duplicate, and for `1, 2, 2, 3` it reports `"2"` duplicated. -/
theorem c6_validateNumbering_gaps_and_duplicates :
    (∀ (st : FigureFormatter.FigState) (out : FigureFormatter.VOut)
        (st2 : FigureFormatter.FigState),
        FigureFormatter.validateNumbering st = some (out, st2) →
          st2.figureNumbers = st.figureNumbers) ∧
    FigureFormatter.validateNumbering ⟨[chars "1", chars "2", chars "4"], []⟩ =
      some (⟨false, [FigureFormatter.FigIssue.missing [3]]⟩,
            ⟨[chars "1", chars "2", chars "4"], [FigureFormatter.FigIssue.missing [3]]⟩) ∧
    FigureFormatter.validateNumbering ⟨[chars "1", chars "2", chars "2", chars "3"], []⟩ =
      some (⟨false, [FigureFormatter.FigIssue.duplicates [chars "2"]]⟩,
            ⟨[chars "1", chars "2", chars "2", chars "3"],
             [FigureFormatter.FigIssue.duplicates [chars "2"]]⟩) :=
  ⟨FigureFormatter.validate_no_mutation, by decide, by decide⟩

/-- Witness for C6: the no-mutation conjunct applied at the `1, 2, 4`
input. -/
theorem c6_validateNumbering_gaps_and_duplicates_witness :
    (⟨[chars "1", chars "2", chars "4"], [FigureFormatter.FigIssue.missing [3]]⟩ :
        FigureFormatter.FigState).figureNumbers =
      (⟨[chars "1", chars "2", chars "4"], []⟩ : FigureFormatter.FigState).figureNumbers :=
  c6_validateNumbering_gaps_and_duplicates.1
    ⟨[chars "1", chars "2", chars "4"], []⟩
    ⟨false, [FigureFormatter.FigIssue.missing [3]]⟩
    ⟨[chars "1", chars "2", chars "4"], [FigureFormatter.FigIssue.missing [3]]⟩
    (by decide)

/-- C7 counterexample: on the single caption `Figure 1.2: Results`,
`detect_figures` emits two entries for the one caption occurrence - the
full-caption span from `FIGURE_TITLE_PATTERN` and the overlapping shorter
span `(0, 12)` from `WHITESPACE_VARIATION_PATTERN` - because deduplication
compares exact `(start, end)` spans only. -/
theorem c7_span_dedup_counterexample :
    (FigureFormatter.detectFigures ⟨[], []⟩ (chars "Figure 1.2: Results")).1 =
      [⟨0, 19, "FIGURE_TITLE_PATTERN"⟩, ⟨0, 12, "WHITESPACE_VARIATION_PATTERN"⟩] := by
  decide

/-- C7 (amended): deduplication by matched text span guarantees that no two
entries produced by `detect_figures` (or `detect_tables`) share the same
`(start, end)` span; overlapping patterns that match distinct spans of one
caption can still each produce an entry. -/
theorem c7_span_dedup_amended (st : FigureFormatter.FigState) (text : List Char) :
    ((FigureFormatter.detectFigures st text).1.Pairwise
      fun a b => (a.startPos, a.endPos) ≠ (b.startPos, b.endPos)) ∧
    ((TableFormatter.detectTables text).Pairwise
      fun a b => (a.startPos, a.endPos) ≠ (b.startPos, b.endPos)) := by
  constructor
  · unfold FigureFormatter.detectFigures
    exact (FigureFormatter.passes_inv FigureFormatter.figurePasses text ([], [])
      ⟨by simp, by simp⟩).2
  · unfold TableFormatter.detectTables
    exact (FigureFormatter.passes_inv TableFormatter.tablePasses text ([], [])
      ⟨by simp, by simp⟩).2

/-- C10: `detect_figures` appends a number only when it is not already
present, so the collected `figure_numbers` stay pairwise distinct, and on
such a duplicate-free collection `validate_numbering` reports no duplicate
issue. -/
theorem c10_figureNumbers_distinct
    (st : FigureFormatter.FigState) (text : List Char)
    (hnd : st.figureNumbers.Nodup) :
    ((FigureFormatter.detectFigures st text).2.figureNumbers).Nodup ∧
    (∀ (out : FigureFormatter.VOut) (st2 : FigureFormatter.FigState),
        FigureFormatter.validateNumbering st = some (out, st2) →
          ∀ ns, FigureFormatter.FigIssue.duplicates ns ∉ out.issues) := by
  constructor
  · unfold FigureFormatter.detectFigures
    exact FigureFormatter.trackNums_nodup _ _ hnd
  · intro out st2 h
    exact FigureFormatter.validate_no_dup st out st2 hnd h

/-- Witness for C10 at a concrete detection state and text. -/
theorem c10_figureNumbers_distinct_witness :
    (([] : List (List Char)).Nodup ∧
      ((FigureFormatter.detectFigures ⟨[], []⟩ (chars "Figure 1: A")).2.figureNumbers).Nodup) ∧
    ([chars "1", chars "2"].Nodup ∧
      ∀ ns, FigureFormatter.FigIssue.duplicates ns ∉
        (⟨true, ([] : List FigureFormatter.FigIssue)⟩ : FigureFormatter.VOut).issues) := by
  refine ⟨⟨by decide,
    (c10_figureNumbers_distinct ⟨[], []⟩ (chars "Figure 1: A") (by decide)).1⟩,
    ⟨by decide, ?_⟩⟩
  exact (c10_figureNumbers_distinct ⟨[chars "1", chars "2"], []⟩ [] (by decide)).2
    ⟨true, []⟩ ⟨[chars "1", chars "2"], []⟩ (by decide)

/-- C1: `process_document_headings` resets the `NumberingState` at the start
of each call, so its output does not depend on any state left over from an
earlier document, and running it twice on the same lines yields identical
heading-record sequences. -/
theorem c1_processDocumentHeadings_deterministic
    (s1 s2 : NState) (lines : List (List Char)) :
    processDocumentHeadings s1 lines = processDocumentHeadings s2 lines ∧
    processDocumentHeadings s1 lines = processDocumentHeadings s1 lines :=
  ⟨rfl, rfl⟩

/-- C8: the line classifier is total - `analyze_line` is a function, every
input line receives exactly one classification whose type is one of the
finitely many valid classification types, and an empty or whitespace-only
line is always classified `empty`. -/
theorem c8_analyzeLine_total_and_empty (line : List Char) (pwc : Bool) :
    (stripL line = [] →
      PatternEngine.analyzeLine line pwc = ⟨"empty", 0, 0⟩) ∧
    (PatternEngine.analyzeLine line pwc).type ∈ PatternEngine.VALID_TYPES := by
  constructor
  · intro h
    unfold PatternEngine.analyzeLine
    have ht : PatternEngine.trimmedOf line = [] := by
      unfold PatternEngine.trimmedOf
      rw [PatternEngine.lineCleaned_of_stripNil h]
      exact h
    rw [ht]
    rfl
  · unfold PatternEngine.analyzeLine
    by_cases he : (PatternEngine.trimmedOf line).isEmpty
    · rw [if_pos he]; decide
    · rw [if_neg he]
      cases hp : PatternEngine.pick PatternEngine.STAGES
          (PatternEngine.lineCleaned line) (PatternEngine.trimmedOf line) pwc with
      | some a =>
        exact (PatternEngine.pick_ok PatternEngine.STAGES PatternEngine.stages_ok
          (PatternEngine.lineCleaned line) (PatternEngine.trimmedOf line) pwc a hp).1
      | none =>
        unfold PatternEngine.fallbackType
        split_ifs <;> decide

/-- C8 witness: a whitespace-only line is classified `empty`, and a
concrete prose line receives a valid classification type. -/
theorem c8_analyzeLine_total_and_empty_witness :
    PatternEngine.analyzeLine (chars "   ") false = ⟨"empty", 0, 0⟩ ∧
    (PatternEngine.analyzeLine (chars "Results and Discussion") false).type ∈
      PatternEngine.VALID_TYPES :=
  ⟨(c8_analyzeLine_total_and_empty (chars "   ") false).1 (by decide),
   (c8_analyzeLine_total_and_empty (chars "Results and Discussion") false).2⟩

set_option maxRecDepth 40000 in
/-- C9 counterexample: a 103-character chapter heading line is past the
`is_short` threshold, yet `analyze_line` classifies it as a level-1
`chapter_heading` (priority 1.5 carries no length gate), not as a
paragraph - so long lines are not excluded from heading classifications in
general. -/
theorem c9_long_line_counterexample :
    100 ≤ (PatternEngine.trimmedOf PatternEngine.longChapterLine).length ∧
    PatternEngine.analyzeLine PatternEngine.longChapterLine false
      = ⟨"chapter_heading", 1, 100⟩ := by
  decide

/-- C9 (amended): the `is_short` length gate applies exactly to the
generic `heading` type of priority 2: a line whose trimmed text reaches
length 100 is never classified with type `heading`.  Other heading-like
classifications (`chapter_heading`, `heading_hierarchy`, ...) carry no
length gate. -/
theorem c9_long_lines_never_generic_heading (line : List Char) (pwc : Bool)
    (h : 100 ≤ (PatternEngine.trimmedOf line).length) :
    ¬ (PatternEngine.analyzeLine line pwc).type = "heading" := by
  intro he
  unfold PatternEngine.analyzeLine at he
  by_cases hem : (PatternEngine.trimmedOf line).isEmpty
  · rw [if_pos hem] at he
    exact absurd he (by decide)
  · rw [if_neg hem] at he
    cases hp : PatternEngine.pick PatternEngine.STAGES
        (PatternEngine.lineCleaned line) (PatternEngine.trimmedOf line) pwc with
    | some a =>
      rw [hp] at he
      have := (PatternEngine.pick_ok PatternEngine.STAGES PatternEngine.stages_ok
        (PatternEngine.lineCleaned line) (PatternEngine.trimmedOf line) pwc a hp).2 he
      omega
    | none =>
      rw [hp] at he
      revert he
      unfold PatternEngine.fallbackType
      split_ifs <;> decide

/-- C9 witness: a concrete 117-character prose line is never given the
generic `heading` type. -/
theorem c9_long_lines_never_generic_heading_witness :
    ¬ (PatternEngine.analyzeLine PatternEngine.longProseLine false).type = "heading" :=
  c9_long_lines_never_generic_heading PatternEngine.longProseLine false (by decide)

end CamDocs
